import Mathlib

/-!
Shallow embedding of the comparison/validation engine of the repository
(`hw_diff_module.py`, `sensor_validator.py`, `create_baseline_config.py`).
Statuses are plain strings, exactly as in the Python source.  Python string
operations are modelled structurally over `List Char` (`Py` namespace);
Python dicts built by comprehension are modelled as lookup functions over
lists (later entries win, as in Python).  Python `for k in set(a)|set(b)`
loops, whose iteration order is unspecified, are modelled by an explicit
`order : List String` argument, while loops the source writes as
`for k in sorted(...)` sort internally.
-/

/-- Equality on `Except` values is decidable componentwise (used to settle
concrete evaluations of the fallible comparator by `decide`). -/
instance {ε α : Type} [DecidableEq ε] [DecidableEq α] :
    DecidableEq (Except ε α) := fun a b =>
  match a, b with
  | .ok x, .ok y =>
    if h : x = y then isTrue (by rw [h])
    else isFalse (by intro hh; cases hh; exact h rfl)
  | .ok _, .error _ => isFalse (fun hh => Except.noConfusion hh)
  | .error _, .ok _ => isFalse (fun hh => Except.noConfusion hh)
  | .error e, .error f =>
    if h : e = f then isTrue (by rw [h])
    else isFalse (by intro hh; cases hh; exact h rfl)

namespace Py

/-- Python's substring test `needle in hay`. -/
def containsSub (hay needle : List Char) : Bool :=
  (List.range (hay.length + 1)).any (fun i => needle.isPrefixOf (hay.drop i))

/-- Lexicographic comparison of char lists by code point, as Python compares
`str` values. -/
def lexLe : List Char → List Char → Bool
  | [], _ => true
  | _ :: _, [] => false
  | a :: as, b :: bs =>
    if a.toNat < b.toNat then true
    else if a.toNat = b.toNat then lexLe as bs
    else false

theorem lexLe_cons_iff (x y : Char) (xs ys : List Char) :
    lexLe (x :: xs) (y :: ys) = true ↔
      x.toNat < y.toNat ∨ (x.toNat = y.toNat ∧ lexLe xs ys = true) := by
  simp only [lexLe]
  by_cases h1 : x.toNat < y.toNat
  · simp [h1]
  · by_cases h2 : x.toNat = y.toNat
    · simp [h1, h2]
    · simp [h1, h2]

/-- Python's `≤` on strings, as a proposition. -/
def strLeP (a b : String) : Prop := lexLe a.toList b.toList = true

instance : DecidableRel strLeP := fun a b => by unfold strLeP; infer_instance

theorem lexLe_total (a b : List Char) : lexLe a b = true ∨ lexLe b a = true := by
  induction a generalizing b with
  | nil => left; rfl
  | cons x xs ih =>
    cases b with
    | nil => right; rfl
    | cons y ys =>
      rcases Nat.lt_trichotomy x.toNat y.toNat with h | h | h
      · left; rw [lexLe_cons_iff]; exact Or.inl h
      · rcases ih ys with h2 | h2
        · left; rw [lexLe_cons_iff]; exact Or.inr ⟨h, h2⟩
        · right; rw [lexLe_cons_iff]; exact Or.inr ⟨h.symm, h2⟩
      · right; rw [lexLe_cons_iff]; exact Or.inl h

theorem lexLe_trans (a b c : List Char) (h1 : lexLe a b = true)
    (h2 : lexLe b c = true) : lexLe a c = true := by
  induction a generalizing b c with
  | nil => rfl
  | cons x xs ih =>
    cases b with
    | nil => simp [lexLe] at h1
    | cons y ys =>
      cases c with
      | nil => simp [lexLe] at h2
      | cons z zs =>
        rw [lexLe_cons_iff] at h1 h2 ⊢
        rcases h1 with h1 | ⟨h1e, h1r⟩
        · rcases h2 with h2 | ⟨h2e, _⟩
          · exact Or.inl (Nat.lt_trans h1 h2)
          · exact Or.inl (h2e ▸ h1)
        · rcases h2 with h2 | ⟨h2e, h2r⟩
          · exact Or.inl (h1e ▸ h2)
          · exact Or.inr ⟨h1e.trans h2e, ih ys zs h1r h2r⟩

instance : IsTotal String strLeP := ⟨fun a b => lexLe_total a.toList b.toList⟩

instance : IsTrans String strLeP :=
  ⟨fun a b c h1 h2 => lexLe_trans a.toList b.toList c.toList h1 h2⟩

/-- First-occurrence-order deduplication, as iterating the keys of a Python
dict built by insertion (`List.dedup` keeps last occurrences, so reversing
on both sides keeps first occurrences in order). -/
def dedupFirst {α : Type} [DecidableEq α] (l : List α) : List α :=
  (l.reverse.dedup).reverse

/-- A fold whose step fixes every accumulator leaves the accumulator
unchanged (used for self-comparison arguments). -/
theorem foldlFixed {α β : Type} (f : β → α → β) (l : List α) (acc : β)
    (h : ∀ b : β, ∀ a ∈ l, f b a = b) : l.foldl f acc = acc := by
  induction l generalizing acc with
  | nil => rfl
  | cons x xs ih =>
    rw [List.foldl_cons, h acc x (List.mem_cons_self _ _)]
    exact ih _ (fun b a ha => h b a (List.mem_cons_of_mem _ ha))

/-- Python `sorted(set(keys))`: the deduplicated keys in ascending string
order (code-point lexicographic, as Python compares `str`). -/
def sortedKeys (keys : List String) : List String :=
  List.insertionSort strLeP (dedupFirst keys)

/-- Dict built by `{key(x): x for x in xs}`: on duplicate keys the LAST
entry wins, exactly as Python's comprehension overwrites. -/
def dictLook {α : Type} (key : α → String) (xs : List α) (k : String) : Option α :=
  xs.reverse.find? (fun x => key x = k)

theorem sortedKeys_sorted (keys : List String) :
    List.Sorted strLeP (sortedKeys keys) :=
  List.sorted_insertionSort strLeP _

theorem mem_dedupFirst {α : Type} [DecidableEq α] {l : List α} {k : α} :
    k ∈ dedupFirst l ↔ k ∈ l := by
  simp [dedupFirst, List.mem_dedup]

theorem mem_sortedKeys {keys : List String} {k : String} :
    k ∈ sortedKeys keys ↔ k ∈ keys :=
  ((List.perm_insertionSort strLeP _).mem_iff).trans mem_dedupFirst

/-- Digits-only numeral value; `none` when empty or a non-digit occurs. -/
def digitsVal (l : List Char) : Option Nat :=
  if l ≠ [] ∧ l.all Char.isDigit then
    some (l.foldl (fun a c => a * 10 + (c.toNat - 48)) 0)
  else none

/-- Python whitespace strip (`str.strip()`). -/
def stripWs (l : List Char) : List Char :=
  ((l.dropWhile Char.isWhitespace).reverse.dropWhile Char.isWhitespace).reverse

/-- Python `str.upper()` over the ASCII data of this repository. -/
def upperL (l : List Char) : List Char := l.map Char.toUpper

/-- Python `str.lower()` over the ASCII data of this repository. -/
def lowerL (l : List Char) : List Char := l.map Char.toLower

/-- Python `int(s)`: optional surrounding whitespace, optional sign, digits;
anything else raises `ValueError`, modelled as `none`.  (Underscore digit
separators, accepted by CPython, do not occur in this repository's data and
are not modelled.) -/
def pyIntOpt (l : List Char) : Option Int :=
  match stripWs l with
  | '-' :: rest => (digitsVal rest).map (fun n => -(n : Int))
  | '+' :: rest => (digitsVal rest).map (fun n => (n : Int))
  | t => (digitsVal t).map (fun n => (n : Int))

/-- Python's `str.isdigit` over the ASCII data of this repository. -/
def pyIsDigit (l : List Char) : Bool :=
  l ≠ [] && l.all Char.isDigit

/-- First run of digits in the string, as `re.findall(r'\d+', s)[0]`;
`none` when the string has no digit. -/
def firstNumber (l : List Char) : Option Nat :=
  digitsVal ((l.dropWhile (fun c => !c.isDigit)).takeWhile Char.isDigit)

/-- Recursion core of `removeAll`, structural on a fuel equal to the input
length (every step strictly shortens the list, so the fuel never runs out
on the initial call). -/
def removeAllGo (pat : List Char) : Nat → List Char → List Char
  | _, [] => []
  | 0, l => l
  | fuel + 1, c :: rest =>
    if pat ≠ [] ∧ pat.isPrefixOf (c :: rest) then
      removeAllGo pat fuel ((c :: rest).drop pat.length)
    else c :: removeAllGo pat fuel rest

/-- Python `s.replace(pat, '')`: removes every occurrence of `pat`
(all `replace` calls in the source replace with `''`). -/
def removeAll (pat l : List Char) : List Char :=
  removeAllGo pat l.length l

/-- Python decimal literal `float(s)` for the plain `digits[.digits]` forms
occurring in this repository's data (no exponent notation is modelled);
returns `none` where Python raises `ValueError`. -/
def pyFloatOpt (l : List Char) : Option Rat :=
  let core : List Char → Option Rat := fun t =>
    let ip := t.takeWhile Char.isDigit
    let rest := t.drop ip.length
    match rest with
    | [] => if ip = [] then none else (digitsVal ip).map (fun n => (n : Rat))
    | '.' :: fr =>
      if fr.all Char.isDigit ∧ (ip ≠ [] ∨ fr ≠ []) then
        some (((digitsVal ip).getD 0 : Rat) +
          ((digitsVal fr).getD 0 : Rat) / ((10 : Rat) ^ fr.length))
      else none
    | _ => none
  match stripWs l with
  | '-' :: rest => (core rest).map (fun q => -q)
  | '+' :: rest => core rest
  | t => core t

end Py

namespace HwDiff

/-- `HardwareDiff.STATUS_PRIORITY` (hw_diff_module.py:181-187): the fixed
priority table; `dict.get(s, 0)` defaults to 0 for unknown strings. -/
def STATUS_PRIORITY : List (String × Nat) :=
  [("PASS", 0), ("WARNING", 1), ("FAIL", 2), ("ERROR", 3), ("UNKNOWN", 4)]

/-- Priority lookup with Python's `.get(status, 0)` default. -/
def priorityOf (s : String) : Nat :=
  match STATUS_PRIORITY.find? (fun p => p.1 = s) with
  | some p => p.2
  | none => 0

/-- `HardwareDiff._escalate_status` (hw_diff_module.py:1258-1274): returns
`new_status` iff its priority is strictly greater, else `current_status`. -/
def escalate_status (current_status new_status : String) : String :=
  if priorityOf new_status > priorityOf current_status then new_status
  else current_status

/-- The five status strings of the enumeration. -/
def statusEnum : List String := ["PASS", "WARNING", "FAIL", "ERROR", "UNKNOWN"]

end HwDiff

/-- C1: over the five-status enumeration, `_escalate_status` returns one of
its two arguments, never has lower priority than either (the fixed order
PASS 0 < WARNING 1 < FAIL 2 < ERROR 3 < UNKNOWN 4), is commutative and
associative, and `escalate(PASS, x) = x` for every status `x`. -/
theorem C1_escalate_monotone_comm_assoc (a b c : String)
    (ha : a ∈ HwDiff.statusEnum) (hb : b ∈ HwDiff.statusEnum)
    (hc : c ∈ HwDiff.statusEnum) :
    (HwDiff.escalate_status a b = a ∨ HwDiff.escalate_status a b = b) ∧
    HwDiff.priorityOf (HwDiff.escalate_status a b) ≥ HwDiff.priorityOf a ∧
    HwDiff.priorityOf (HwDiff.escalate_status a b) ≥ HwDiff.priorityOf b ∧
    HwDiff.escalate_status a b = HwDiff.escalate_status b a ∧
    HwDiff.escalate_status (HwDiff.escalate_status a b) c =
      HwDiff.escalate_status a (HwDiff.escalate_status b c) ∧
    HwDiff.escalate_status "PASS" a = a := by
  fin_cases ha <;> fin_cases hb <;> fin_cases hc <;> decide

/-- Witness for C1 at a concrete triple of statuses. -/
theorem C1_escalate_monotone_comm_assoc_witness :
    (HwDiff.escalate_status "WARNING" "FAIL" = "WARNING" ∨
      HwDiff.escalate_status "WARNING" "FAIL" = "FAIL") ∧
    HwDiff.priorityOf (HwDiff.escalate_status "WARNING" "FAIL") ≥
      HwDiff.priorityOf "WARNING" ∧
    HwDiff.priorityOf (HwDiff.escalate_status "WARNING" "FAIL") ≥
      HwDiff.priorityOf "FAIL" ∧
    HwDiff.escalate_status "WARNING" "FAIL" =
      HwDiff.escalate_status "FAIL" "WARNING" ∧
    HwDiff.escalate_status (HwDiff.escalate_status "WARNING" "FAIL") "ERROR" =
      HwDiff.escalate_status "WARNING" (HwDiff.escalate_status "FAIL" "ERROR") ∧
    HwDiff.escalate_status "PASS" "WARNING" = "WARNING" :=
  C1_escalate_monotone_comm_assoc "WARNING" "FAIL" "ERROR"
    (by decide) (by decide) (by decide)

/-- C10: `_escalate_status` is total over arbitrary strings: a status string
absent from the priority table gets priority 0, so for any unknown string `s`
and any known status `x` of positive priority, `escalate(s, x) = x`, and
`escalate(PASS, s) = PASS` — the unknown candidate is silently absorbed.
(Totality itself is structural: the embedding is a total function, mirroring
the Python body, which indexes no dict and can raise nothing.) -/
theorem C10_escalate_total_unknown_absorbed (s x : String)
    (hs : HwDiff.STATUS_PRIORITY.find? (fun p => p.1 = s) = none)
    (hx : x ∈ ["WARNING", "FAIL", "ERROR", "UNKNOWN"]) :
    HwDiff.escalate_status s x = x ∧ HwDiff.escalate_status "PASS" s = "PASS" := by
  have hps : HwDiff.priorityOf s = 0 := by
    unfold HwDiff.priorityOf
    rw [hs]
  constructor
  · unfold HwDiff.escalate_status
    rw [hps]
    fin_cases hx <;> simp [HwDiff.priorityOf, HwDiff.STATUS_PRIORITY, List.find?]
  · unfold HwDiff.escalate_status
    rw [hps]
    simp [HwDiff.priorityOf, HwDiff.STATUS_PRIORITY, List.find?]

/-- Witness for C10 at the concrete unknown string "BOGUS". -/
theorem C10_escalate_total_unknown_absorbed_witness :
    HwDiff.escalate_status "BOGUS" "FAIL" = "FAIL" ∧
    HwDiff.escalate_status "PASS" "BOGUS" = "PASS" :=
  C10_escalate_total_unknown_absorbed "BOGUS" "FAIL" (by decide) (by decide)

namespace HwDiff

/-- `MemoryModule` record as produced by the collectors (`dmidecode` parse /
baseline JSON): fields `slot`, `size`, `populated` are always present. -/
structure MemoryModule where
  slot : String
  size : String
  populated : Bool
deriving DecidableEq

/-- One entry of `compare_memory`'s `differences` list: the `type` and
`severity` keys of the Python dict (the free-text `description` string,
which no claim observes, is omitted). -/
structure MemDiff where
  dtype : String
  severity : String
deriving DecidableEq

/-- Result of `compare_memory`: `status`, `differences`, the four summary
counters and the per-slot `slot_comparison` detail list (each entry as the
pair of its `slot` and `status` keys). -/
structure MemCmp where
  status : String
  differences : List MemDiff
  populated_current : Nat
  populated_baseline : Nat
  total_current_gb : Int
  total_baseline_gb : Int
  slot_comparison : List (String × String)
deriving DecidableEq

/-- `parse_memory_size` (hw_diff_module.py:491-523): `''` and
`'No Module Installed'` map to 0; after strip+upper, `'<N> GB'`/`'<N>GB'`
parse as GB (the `replace` removes every occurrence of the suffix text, as
Python's `str.replace` does); `'<N> MB'`/`'<N>MB'` floor-divide by 1024;
a bare digit string is GB; otherwise the first embedded integer; any
`int()` failure is caught and yields 0. -/
def parse_memory_size (s : String) : Int :=
  if s = "" ∨ s = "No Module Installed" then 0
  else
    let t := Py.upperL (Py.stripWs s.toList)
    if [' ', 'G', 'B'].isSuffixOf t then
      (Py.pyIntOpt (Py.removeAll [' ', 'G', 'B'] t)).getD 0
    else if ['G', 'B'].isSuffixOf t then
      (Py.pyIntOpt (Py.removeAll ['G', 'B'] t)).getD 0
    else if [' ', 'M', 'B'].isSuffixOf t then
      ((Py.pyIntOpt (Py.removeAll [' ', 'M', 'B'] t)).map
        (fun n => Int.fdiv n 1024)).getD 0
    else if ['M', 'B'].isSuffixOf t then
      ((Py.pyIntOpt (Py.removeAll ['M', 'B'] t)).map
        (fun n => Int.fdiv n 1024)).getD 0
    else if Py.pyIsDigit t then (Py.pyIntOpt t).getD 0
    else ((Py.firstNumber t).map (fun n => (n : Int))).getD 0

/-- The `for slot in sorted(all_slots)` loop of `compare_memory`
(hw_diff_module.py:567-604), threading status, differences and the
`slot_comparison` detail list.  A slot absent from a side reads
`{}.get('populated', False) = False`. -/
def memSlotLoop (curL baseL : String → Option MemoryModule) :
    List String → String → List MemDiff → List (String × String) →
    String × List MemDiff × List (String × String)
  | [], st, ds, sc => (st, ds, sc)
  | slot :: rest, st, ds, sc =>
    if ((curL slot).map (·.populated)).getD false =
        ((baseL slot).map (·.populated)).getD false then
      memSlotLoop curL baseL rest st ds
        (sc ++ [(slot,
          if ((curL slot).map (·.populated)).getD false then "POPULATED"
          else "EMPTY")])
    else
      memSlotLoop curL baseL rest (escalate_status st "WARNING")
        (ds ++ [⟨"slot_population_change", "minor"⟩])
        (sc ++ [(slot,
          if ((curL slot).map (·.populated)).getD false then "ADDED"
          else "REMOVED")])

/-- `HardwareDiff.compare_memory` (hw_diff_module.py:471-616): populated
counts and total GiB are rolled up first (count mismatch → WARNING,
capacity mismatch → FAIL), then each slot of the sorted key union is
compared for population-flag flips (→ WARNING). -/
def compare_memory (current baseline : List MemoryModule) : MemCmp :=
  let pc := (current.filter (·.populated)).length
  let pb := (baseline.filter (·.populated)).length
  let tc := current.foldl
    (fun a d => if d.populated then a + parse_memory_size d.size else a) (0 : Int)
  let tb := baseline.foldl
    (fun a d => if d.populated then a + parse_memory_size d.size else a) (0 : Int)
  let st1 := if pc ≠ pb then escalate_status "PASS" "WARNING" else "PASS"
  let ds1 : List MemDiff :=
    if pc ≠ pb then [⟨"slot_count_mismatch", "warning"⟩] else []
  let st2 := if tc ≠ tb then escalate_status st1 "FAIL" else st1
  let ds2 := if tc ≠ tb then ds1 ++ [⟨"total_memory_mismatch", "major"⟩] else ds1
  let slots := Py.sortedKeys (current.map (·.slot) ++ baseline.map (·.slot))
  let out := memSlotLoop (Py.dictLook (·.slot) current)
    (Py.dictLook (·.slot) baseline) slots st2 ds2 []
  ⟨out.1, out.2.1, pc, pb, tc, tb, out.2.2⟩

theorem memSlotLoop_status_WARNING (curL baseL : String → Option MemoryModule)
    (slots : List String) (ds : List MemDiff) (sc : List (String × String)) :
    (memSlotLoop curL baseL slots "WARNING" ds sc).1 = "WARNING" := by
  induction slots generalizing ds sc with
  | nil => rfl
  | cons slot rest ih =>
    unfold memSlotLoop
    split
    · exact ih _ _
    · exact ih _ _

theorem memSlotLoop_status_FAIL (curL baseL : String → Option MemoryModule)
    (slots : List String) (ds : List MemDiff) (sc : List (String × String)) :
    (memSlotLoop curL baseL slots "FAIL" ds sc).1 = "FAIL" := by
  induction slots generalizing ds sc with
  | nil => rfl
  | cons slot rest ih =>
    unfold memSlotLoop
    split
    · exact ih _ _
    · exact ih _ _

theorem memSlotLoop_self (look : String → Option MemoryModule)
    (slots : List String) (st : String) (ds : List MemDiff)
    (sc : List (String × String)) :
    (memSlotLoop look look slots st ds sc).1 = st ∧
    (memSlotLoop look look slots st ds sc).2.1 = ds := by
  induction slots generalizing sc with
  | nil => exact ⟨rfl, rfl⟩
  | cons slot rest ih =>
    unfold memSlotLoop
    simp only [if_pos rfl]
    exact ih _

theorem escalate_PASS_WARNING : escalate_status "PASS" "WARNING" = "WARNING" := by
  decide

theorem escalate_PASS_FAIL : escalate_status "PASS" "FAIL" = "FAIL" := by decide

theorem escalate_WARNING_FAIL : escalate_status "WARNING" "FAIL" = "FAIL" := by
  decide

theorem memSlotLoop_fst_slots (curL baseL : String → Option MemoryModule)
    (slots : List String) (st : String) (ds : List MemDiff)
    (sc : List (String × String)) :
    (memSlotLoop curL baseL slots st ds sc).2.2.map Prod.fst =
      sc.map Prod.fst ++ slots := by
  induction slots generalizing st ds sc with
  | nil => simp [memSlotLoop]
  | cons slot rest ih =>
    unfold memSlotLoop
    split <;> simp [ih]

end HwDiff

/-- C7: in the memory comparison, a populated-slot-count mismatch with
equal total capacity yields exactly WARNING, while any total-GiB capacity
mismatch yields FAIL; in particular baseline 4 populated slots totalling
128 GiB against current 4 populated slots totalling 96 GiB is FAIL. -/
theorem C7_memory_capacity_dominates (current baseline : List HwDiff.MemoryModule)
    (hcnt : (current.filter (·.populated)).length ≠
      (baseline.filter (·.populated)).length)
    (hcap : current.foldl
        (fun a d => if d.populated then a + HwDiff.parse_memory_size d.size else a)
        (0 : Int) =
      baseline.foldl
        (fun a d => if d.populated then a + HwDiff.parse_memory_size d.size else a)
        (0 : Int)) :
    (HwDiff.compare_memory current baseline).status = "WARNING" ∧
    (∀ cur2 base2 : List HwDiff.MemoryModule,
      cur2.foldl
          (fun a d => if d.populated then a + HwDiff.parse_memory_size d.size else a)
          (0 : Int) ≠
        base2.foldl
          (fun a d => if d.populated then a + HwDiff.parse_memory_size d.size else a)
          (0 : Int) →
      (HwDiff.compare_memory cur2 base2).status = "FAIL") ∧
    (HwDiff.compare_memory
      [⟨"DIMM0", "24 GB", true⟩, ⟨"DIMM1", "24 GB", true⟩,
       ⟨"DIMM2", "24 GB", true⟩, ⟨"DIMM3", "24 GB", true⟩]
      [⟨"DIMM0", "32 GB", true⟩, ⟨"DIMM1", "32 GB", true⟩,
       ⟨"DIMM2", "32 GB", true⟩, ⟨"DIMM3", "32 GB", true⟩]).status = "FAIL" := by
  refine ⟨?_, ?_, by decide⟩
  · simp only [HwDiff.compare_memory, if_pos hcnt, if_neg (not_ne_iff.mpr hcap),
      HwDiff.escalate_PASS_WARNING]
    exact HwDiff.memSlotLoop_status_WARNING _ _ _ _ _
  · intro cur2 base2 hc2
    by_cases h2 : (cur2.filter (·.populated)).length =
        (base2.filter (·.populated)).length
    · simp only [HwDiff.compare_memory, if_neg (not_ne_iff.mpr h2), if_pos hc2,
        HwDiff.escalate_PASS_FAIL]
      exact HwDiff.memSlotLoop_status_FAIL _ _ _ _ _
    · simp only [HwDiff.compare_memory, if_pos h2, if_pos hc2,
        HwDiff.escalate_PASS_WARNING, HwDiff.escalate_WARNING_FAIL]
      exact HwDiff.memSlotLoop_status_FAIL _ _ _ _ _

/-- Witness for C7: one populated slot of 32 GB on each side versus two
populated slots of 16 GB — equal capacity, different populated counts. -/
theorem C7_memory_capacity_dominates_witness :
    (HwDiff.compare_memory [⟨"DIMM0", "32 GB", true⟩]
      [⟨"DIMM0", "16 GB", true⟩, ⟨"DIMM1", "16 GB", true⟩]).status = "WARNING" ∧
    (∀ cur2 base2 : List HwDiff.MemoryModule,
      cur2.foldl
          (fun a d => if d.populated then a + HwDiff.parse_memory_size d.size else a)
          (0 : Int) ≠
        base2.foldl
          (fun a d => if d.populated then a + HwDiff.parse_memory_size d.size else a)
          (0 : Int) →
      (HwDiff.compare_memory cur2 base2).status = "FAIL") ∧
    (HwDiff.compare_memory
      [⟨"DIMM0", "24 GB", true⟩, ⟨"DIMM1", "24 GB", true⟩,
       ⟨"DIMM2", "24 GB", true⟩, ⟨"DIMM3", "24 GB", true⟩]
      [⟨"DIMM0", "32 GB", true⟩, ⟨"DIMM1", "32 GB", true⟩,
       ⟨"DIMM2", "32 GB", true⟩, ⟨"DIMM3", "32 GB", true⟩]).status = "FAIL" :=
  C7_memory_capacity_dominates _ _ (by decide) (by decide)

namespace HwDiff

/-- Cores/threads value domain: the collectors produce either an integer or
the sentinel string `'Unknown'` (fallback path), and the baseline JSON holds
the same; `compare_processors` only distinguishes `'Unknown'` from other
values and compares the rest by equality. -/
inductive CVal where
  | unknown : CVal
  | num : Nat → CVal
deriving DecidableEq

/-- Rendering of a cores/threads value inside an f-string. -/
def CVal.render : CVal → String
  | .unknown => "Unknown"
  | .num n => toString n

/-- `Processor` record as produced by the collectors: `socket`, `model`,
`cores`, `threads` are always present. -/
structure Processor where
  socket : String
  model : String
  cores : CVal
  threads : CVal
deriving DecidableEq

/-- Result of `compare_processors`: `status`, the `differences` message
list, and `details.socket_comparison` as (socket, status-tag) pairs (the
per-field sub-dicts of a socket entry, observed by no claim, are omitted). -/
structure ProcCmp where
  status : String
  differences : List String
  socket_comparison : List (String × String)
deriving DecidableEq

/-- Model check of a matched socket (hw_diff_module.py:403-411):
mismatch appends a difference and escalates FAIL. -/
def modelCheck (sock : String) (cur base : Processor) (st : String)
    (ds : List String) : String × List String :=
  if cur.model ≠ base.model then
    (escalate_status st "FAIL",
      ds ++ ["CPU " ++ sock ++ " model mismatch: " ++ cur.model ++ " vs " ++
        base.model])
  else (st, ds)

/-- Cores check of a matched socket (hw_diff_module.py:414-446).  On any
cores mismatch the source enters a branch chain in which both the
current-side-'Unknown' WARNING branch and the both-known FAIL branch append
to `result`, a name never defined in `compare_processors` (the function's
accumulator is `diff_result`), so Python raises `NameError` there; only the
baseline-side-'Unknown' skip (and the unreachable both-'Unknown' skip) pass.
`true` = continue, `false` = NameError. -/
def coresGate (cur base : Processor) : Bool :=
  if cur.cores ≠ base.cores then
    match cur.cores, base.cores with
    | .num _, .unknown => true
    | .unknown, .unknown => true
    | _, _ => false
  else true

/-- Threads check of a matched socket (hw_diff_module.py:449-457): any
mismatch appends a difference and escalates FAIL — the source has no
'Unknown' special-casing here. -/
def threadsCheck (sock : String) (cur base : Processor) (st : String)
    (ds : List String) : String × List String :=
  if cur.threads ≠ base.threads then
    (escalate_status st "FAIL",
      ds ++ ["CPU " ++ sock ++ " threads mismatch: " ++ cur.threads.render ++
        " vs " ++ base.threads.render])
  else (st, ds)

/-- The NameError message Python raises in the dead `result` branches. -/
def nameErrorResult : String := "NameError: name 'result' is not defined"

/-- The `for socket_name in set(...) | set(...)` loop of `compare_processors`
(hw_diff_module.py:381-459), over an explicit enumeration `order` of the
key union (the source iterates a Python set, whose order is unspecified).
A socket absent from current is MISSING→FAIL (checked first, as in the
source), absent from baseline is EXTRA→WARNING, else the field checks run;
a cores mismatch outside the baseline-'Unknown' skip raises NameError,
which aborts the whole comparison. -/
def procLoop (curD baseD : String → Option Processor) :
    List String → String → List String → List (String × String) →
    Except String (String × List String × List (String × String))
  | [], st, ds, sc => .ok (st, ds, sc)
  | sock :: rest, st, ds, sc =>
    match curD sock, baseD sock with
    | none, _ =>
      procLoop curD baseD rest (escalate_status st "FAIL")
        (ds ++ ["CPU socket " ++ sock ++ " missing in current system"])
        (sc ++ [(sock, "MISSING")])
    | some _, none =>
      procLoop curD baseD rest (escalate_status st "WARNING")
        (ds ++ ["Extra CPU socket " ++ sock ++ " in current system"])
        (sc ++ [(sock, "EXTRA")])
    | some cur, some base =>
      if coresGate cur base then
        procLoop curD baseD rest
          (threadsCheck sock cur base (modelCheck sock cur base st ds).1
            (modelCheck sock cur base st ds).2).1
          (threadsCheck sock cur base (modelCheck sock cur base st ds).1
            (modelCheck sock cur base st ds).2).2
          (sc ++ [(sock, "MATCH")])
      else .error nameErrorResult

/-- `HardwareDiff.compare_processors` (hw_diff_module.py:357-469): CPU-count
check (mismatch → FAIL), then the per-socket loop over `order`, an
enumeration of the socket-key union.  The result is `Except` because the
cores branches can raise `NameError` (see `coresGate`). -/
def compare_processors (order : List String) (current baseline : List Processor) :
    Except String ProcCmp :=
  (procLoop (Py.dictLook (·.socket) current) (Py.dictLook (·.socket) baseline)
      order
      (if current.length ≠ baseline.length then escalate_status "PASS" "FAIL"
        else "PASS")
      (if current.length ≠ baseline.length then
        ["CPU count mismatch: current=" ++ toString current.length ++
          ", baseline=" ++ toString baseline.length]
        else [])
      []).map
    (fun out => ⟨out.1, out.2.1, out.2.2⟩)

theorem procLoop_self (look : String → Option Processor) (order : List String)
    (h : ∀ s ∈ order, (look s).isSome) (st : String) (ds : List String)
    (sc : List (String × String)) :
    procLoop look look order st ds sc =
      .ok (st, ds, sc ++ order.map (fun s => (s, "MATCH"))) := by
  induction order generalizing sc with
  | nil => simp [procLoop]
  | cons sock rest ih =>
    have hs : (look sock).isSome := h sock (List.mem_cons_self _ _)
    obtain ⟨cur, hcur⟩ := Option.isSome_iff_exists.mp hs
    have hg : coresGate cur cur = true := by simp [coresGate]
    have hm : ∀ st2 ds2, modelCheck sock cur cur st2 ds2 = (st2, ds2) :=
      fun _ _ => by simp [modelCheck]
    have ht : ∀ st2 ds2, threadsCheck sock cur cur st2 ds2 = (st2, ds2) :=
      fun _ _ => by simp [threadsCheck]
    rw [procLoop, hcur]
    simp only [hg, if_true, hm, ht]
    rw [ih (fun s hmem => h s (List.mem_cons_of_mem _ hmem))]
    simp

end HwDiff

/-- C3 (code bug in the source): for a socket present in both snapshots the
claim says a cores mismatch yields FAIL, one-side-'Unknown' yields WARNING,
and threads follow the same rule.  The code instead: (1) on a both-known
cores mismatch, and (2) on a current-side-'Unknown' cores mismatch, it
executes branches that append to `result`, a name that does not exist in
`compare_processors` (its accumulator is `diff_result`), so Python raises
`NameError` and the comparison aborts — the adjacent comments and the
symmetric memory comparator (which does use `result`) show FAIL/WARNING was
the intent; and (3) a threads mismatch with one side 'Unknown' is a plain
FAIL, with no 'Unknown' handling at all. -/
theorem C3_processor_cores_branches_raise_nameerror :
    HwDiff.compare_processors ["CPU0"]
        [⟨"CPU0", "Xeon", .num 8, .num 32⟩]
        [⟨"CPU0", "Xeon", .num 16, .num 32⟩] =
      .error HwDiff.nameErrorResult ∧
    HwDiff.compare_processors ["CPU0"]
        [⟨"CPU0", "Xeon", .unknown, .num 32⟩]
        [⟨"CPU0", "Xeon", .num 16, .num 32⟩] =
      .error HwDiff.nameErrorResult ∧
    HwDiff.compare_processors ["CPU0"]
        [⟨"CPU0", "Xeon", .num 8, .unknown⟩]
        [⟨"CPU0", "Xeon", .num 8, .num 32⟩] =
      .ok ⟨"FAIL", ["CPU CPU0 threads mismatch: Unknown vs 32"],
        [("CPU0", "MATCH")]⟩ := by
  refine ⟨by decide, by decide, by decide⟩

/-- C9 counterexample: the processor comparator iterates
`set(baseline_keys) | set(current_keys)` (hw_diff_module.py:381) with no
`sorted(...)`, so the difference order follows the set's unspecified
enumeration order: two enumerations of the same two-socket union produce
differently ordered difference lists. -/
theorem C9_processor_iteration_not_sorted_counterexample :
    HwDiff.compare_processors ["CPU0", "CPU1"] []
        [⟨"CPU0", "Xeon", .num 8, .num 16⟩, ⟨"CPU1", "Xeon", .num 8, .num 16⟩] ≠
      HwDiff.compare_processors ["CPU1", "CPU0"] []
        [⟨"CPU0", "Xeon", .num 8, .num 16⟩, ⟨"CPU1", "Xeon", .num 8, .num 16⟩] := by
  decide

namespace HwDiff

/-- `PciDevice` record as produced by the collectors: `bdf`, `description`,
`class` (here `deviceClass`, since `class` is reserved), `width`, `speed`. -/
structure PciDevice where
  bdf : String
  description : String
  deviceClass : String
  width : String
  speed : String
deriving DecidableEq

/-- The prefix of `l` before the first occurrence of `pat` (Python
`l.split(pat)[0]` for a nonempty separator). -/
def beforeFirst (pat : List Char) : List Char → List Char
  | [] => []
  | c :: rest =>
    if pat.isPrefixOf (c :: rest) then [] else c :: beforeFirst pat rest

/-- `clean_device_class` (hw_diff_module.py:643-648): empty input maps to
`'Unknown'`, otherwise everything from the first `' ['` on is cut and the
remainder stripped. -/
def clean_device_class (s : String) : List Char :=
  if s = "" then "Unknown".toList
  else Py.stripWs (beforeFirst " [".toList s.toList)

/-- The fixed critical-class set (hw_diff_module.py:637-640). -/
def critical_classes : List String :=
  ["Host bridge", "PCI bridge", "ISA bridge", "Ethernet controller",
   "USB controller", "SATA controller", "System peripheral"]

/-- A device is critical when any critical class name is a SUBSTRING of its
cleaned class string (`cls in clean_device_class(...)`). -/
def is_critical_pci (d : PciDevice) : Bool :=
  critical_classes.any
    (fun cls => Py.containsSub (clean_device_class d.deviceClass) cls.toList)

/-- The values of the Python dict `{key(x): x for x in xs}` in key insertion
order: keys in first-occurrence order, each mapped to the LAST record with
that key. -/
def dictValues {α : Type} (key : α → String) (xs : List α) : List α :=
  (Py.dedupFirst (xs.map key)).filterMap (Py.dictLook key xs)

/-- Count of critical devices of a given cleaned class: the length of the
class's bucket in the `*_by_class` dict of lists. -/
def countClass (devs : List PciDevice) (c : List Char) : Nat :=
  (devs.filter (fun d => clean_device_class d.deviceClass = c)).length

/-- Result of `compare_pci_devices`: `status` and `differences` (the
`summary` and `details` blocks, observed by no claim, are omitted). -/
structure PciCmp where
  status : String
  differences : List String
deriving DecidableEq

/-- One step of the tier-1 class-count loop
(hw_diff_module.py:676-692): a per-class count mismatch → FAIL. -/
def pciClassStep (baseCrit curCrit : List PciDevice)
    (acc : String × List String) (c : List Char) : String × List String :=
  if countClass baseCrit c ≠ countClass curCrit c then
    (escalate_status acc.1 "FAIL",
      acc.2 ++ [String.mk c ++ ": expected " ++
        toString (countClass baseCrit c) ++ ", found " ++
        toString (countClass curCrit c)])
  else acc

/-- One step of the new-critical-class loop (hw_diff_module.py:694-706):
a class present only in current → WARNING. -/
def pciNewClassStep (baseClassKeys : List (List Char))
    (acc : String × List String) (c : List Char) : String × List String :=
  if c ∉ baseClassKeys then
    (escalate_status acc.1 "WARNING",
      acc.2 ++ ["New device class detected: " ++ String.mk c])
  else acc

/-- One step of the tier-2 BDF loop (hw_diff_module.py:709-743): a BDF
absent from the FULL current dict → FAIL; absent from baseline →
informational only; present in both with changed description on an
Ethernet/USB-controller class → WARNING. -/
def pciBdfStep (curByBdf baseByBdf : String → Option PciDevice)
    (acc : String × List String) (bdf : String) : String × List String :=
  match curByBdf bdf with
  | none =>
    (escalate_status acc.1 "FAIL",
      acc.2 ++ ["Critical device " ++ bdf ++ " missing"])
  | some cur =>
    match baseByBdf bdf with
    | none => acc
    | some base =>
      if cur.description ≠ base.description then
        if Py.containsSub (clean_device_class base.deviceClass)
              "Ethernet controller".toList ||
            Py.containsSub (clean_device_class base.deviceClass)
              "USB controller".toList then
          (escalate_status acc.1 "WARNING",
            acc.2 ++ ["Critical device " ++ bdf ++ " description changed: " ++
              cur.description ++ " vs " ++ base.description])
        else acc
      else acc

/-- `HardwareDiff.compare_pci_devices` (hw_diff_module.py:618-755):
tier 1 reconciles critical-device counts per cleaned class (the class
dicts iterate in key insertion order); tier 2 walks
`set(baseline_critical)|set(current_critical)` — `orderB` enumerates that
union, the set's iteration order being unspecified. -/
def compare_pci_devices (orderB : List String)
    (current baseline : List PciDevice) : PciCmp :=
  let baseCrit := (dictValues (·.bdf) baseline).filter is_critical_pci
  let curCrit := (dictValues (·.bdf) current).filter is_critical_pci
  let baseClassKeys :=
    Py.dedupFirst (baseCrit.map (fun d => clean_device_class d.deviceClass))
  let curClassKeys :=
    Py.dedupFirst (curCrit.map (fun d => clean_device_class d.deviceClass))
  let p3 := orderB.foldl
    (pciBdfStep (Py.dictLook (·.bdf) current) (Py.dictLook (·.bdf) baseline))
    (curClassKeys.foldl (pciNewClassStep baseClassKeys)
      (baseClassKeys.foldl (pciClassStep baseCrit curCrit) ("PASS", [])))
  ⟨p3.1, p3.2⟩

/-- `UsbDevice` record: `bus`, `device`, `vid_pid`, `description` are set by
the collectors; `vendor` is read with `.get('vendor', '')` and may be
absent (then `""`). -/
structure UsbDevice where
  bus : String
  device : String
  vid_pid : String
  description : String
  vendor : String
deriving DecidableEq

/-- `IGNORABLE_DEVICES` (hw_diff_module.py:771-780): known KVM/virtual-media
VID:PID pairs. -/
def IGNORABLE_DEVICES : List String :=
  ["0557:8021", "046b:ff01", "046b:ff20", "046b:ff31", "046b:ff10",
   "046b:ffb0", "0557:223a"]

/-- `is_critical_usb` (hw_diff_module.py:783-806): keyword match on the
lowered description, or vendor-name match on the lowered vendor. -/
def is_critical_usb (d : UsbDevice) : Bool :=
  (["hub", "root hub", "host controller", "xhci", "ehci", "ohci", "uhci"].any
    (fun k => Py.containsSub (Py.lowerL d.description.toList) k.toList)) ||
  (["keyboard", "mouse", "management", "controller"].any
    (fun k => Py.containsSub (Py.lowerL d.description.toList) k.toList)) ||
  (["intel", "amd", "via", "nvidia"].any
    (fun k => Py.containsSub (Py.lowerL d.vendor.toList) k.toList))

/-- Length of a VID:PID bucket in the `*_hubs_by_vid_pid` dict of lists. -/
def countVid (devs : List UsbDevice) (v : String) : Nat :=
  (devs.filter (fun d => d.vid_pid = v)).length

/-- Result of `compare_usb_devices`: `status`, `differences` and the
`details.ignored_devices` list (in the source the key is only set when
nonempty; here the list is carried always, empty meaning unset). -/
structure UsbCmp where
  status : String
  differences : List String
  ignored_devices : List UsbDevice
deriving DecidableEq

/-- One step of the critical VID:PID count loop (hw_diff_module.py:827-854):
count mismatch → shortfall FAIL / surplus WARNING, message naming the first
baseline description of that VID:PID. -/
def usbVidStep (baseCrit curCrit : List UsbDevice)
    (acc : String × List String) (v : String) : String × List String :=
  if countVid baseCrit v ≠ countVid curCrit v then
    let bdesc := match baseCrit.find? (fun d => d.vid_pid = v) with
      | some d => d.description
      | none => "Unknown"
    let msg := "USB device " ++ v ++ " (" ++ bdesc ++ "): expected " ++
      toString (countVid baseCrit v) ++ ", found " ++
      toString (countVid curCrit v)
    if countVid baseCrit v > countVid curCrit v then
      (escalate_status acc.1 "FAIL", acc.2 ++ [msg])
    else (escalate_status acc.1 "WARNING", acc.2 ++ [msg])
  else acc

/-- `HardwareDiff.compare_usb_devices` (hw_diff_module.py:757-877):
critical devices are reconciled by VID:PID count over
`set(baseline)|set(current)` vid_pid keys — `orderU` enumerates that union,
the set's iteration order being unspecified.  Devices whose VID:PID is on
`IGNORABLE_DEVICES` are collected into `ignored_devices` afterwards, for
the report only: the severity loop never consults the ignore list. -/
def compare_usb_devices (orderU : List String)
    (current baseline : List UsbDevice) : UsbCmp :=
  let p := orderU.foldl
    (usbVidStep (baseline.filter is_critical_usb)
      (current.filter is_critical_usb)) ("PASS", [])
  ⟨p.1, p.2, current.filter (fun d => d.vid_pid ∈ IGNORABLE_DEVICES)⟩

end HwDiff

/-- C4 counterexample: the ATEN KVM Hub `0557:8021` is on the ignore list,
yet present only in current it escalates the USB status to WARNING (its
description contains the critical keyword `hub`, and the severity loop never
consults the ignore list), whereas with the device absent the status is
PASS; the device does appear in the ignored-devices list. -/
theorem C4_usb_ignore_list_counterexample :
    (HwDiff.compare_usb_devices ["0557:8021"]
        [⟨"001", "002", "0557:8021", "ATEN KVM Hub", ""⟩] []).status =
      "WARNING" ∧
    (HwDiff.compare_usb_devices [] [] []).status = "PASS" ∧
    (⟨"001", "002", "0557:8021", "ATEN KVM Hub", ""⟩ : HwDiff.UsbDevice) ∈
      (HwDiff.compare_usb_devices ["0557:8021"]
        [⟨"001", "002", "0557:8021", "ATEN KVM Hub", ""⟩] []).ignored_devices := by
  refine ⟨by decide, by decide, by decide⟩

/-- C4 amended: an ignore-listed device present in current always appears in
the ignored-devices list, but the list does not shield it from severity
computation: only when the device is NOT classified critical by the
keyword/vendor heuristic does adding it to current leave status and
differences unchanged (a critical-classified ignorable device, such as a
hub, escalates WARNING like any other surplus critical device — see the
counterexample). -/
theorem C4_usb_ignore_list_amended (orderU : List String)
    (current baseline : List HwDiff.UsbDevice) (d : HwDiff.UsbDevice)
    (hig : d.vid_pid ∈ HwDiff.IGNORABLE_DEVICES)
    (hnc : HwDiff.is_critical_usb d = false) :
    d ∈ (HwDiff.compare_usb_devices orderU (current ++ [d])
      baseline).ignored_devices ∧
    (HwDiff.compare_usb_devices orderU (current ++ [d]) baseline).status =
      (HwDiff.compare_usb_devices orderU current baseline).status ∧
    (HwDiff.compare_usb_devices orderU (current ++ [d]) baseline).differences =
      (HwDiff.compare_usb_devices orderU current baseline).differences := by
  have hfilter : (current ++ [d]).filter HwDiff.is_critical_usb =
      current.filter HwDiff.is_critical_usb := by
    rw [List.filter_append]
    simp [hnc]
  refine ⟨?_, ?_, ?_⟩
  · simp only [HwDiff.compare_usb_devices]
    simp [List.mem_filter, hig]
  · simp only [HwDiff.compare_usb_devices, hfilter]
  · simp only [HwDiff.compare_usb_devices, hfilter]

/-- Witness for C4 amended: the AMI Virtual CDROM `046b:ff20`, whose
description matches no critical keyword, added to an empty current list. -/
theorem C4_usb_ignore_list_amended_witness :
    (⟨"001", "003", "046b:ff20", "Virtual CDROM", ""⟩ : HwDiff.UsbDevice) ∈
      (HwDiff.compare_usb_devices ["046b:ff20"]
        ([] ++ [⟨"001", "003", "046b:ff20", "Virtual CDROM", ""⟩])
        []).ignored_devices ∧
    (HwDiff.compare_usb_devices ["046b:ff20"]
        ([] ++ [⟨"001", "003", "046b:ff20", "Virtual CDROM", ""⟩]) []).status =
      (HwDiff.compare_usb_devices ["046b:ff20"] [] []).status ∧
    (HwDiff.compare_usb_devices ["046b:ff20"]
        ([] ++ [⟨"001", "003", "046b:ff20", "Virtual CDROM", ""⟩])
        []).differences =
      (HwDiff.compare_usb_devices ["046b:ff20"] [] []).differences :=
  C4_usb_ignore_list_amended ["046b:ff20"] [] []
    ⟨"001", "003", "046b:ff20", "Virtual CDROM", ""⟩ (by decide) (by decide)

namespace HwDiff

/-- A storage-device record, modelled as the underlying Python dict
(association list, later entries winning), because `group_by_type` reads a
key — `'device'` — that the collectors never emit (they emit `'name'`:
create_baseline_config.py:158, hw_diff_module.py:151), and that absent-key
read is exactly what claim C8 is about. -/
def StorageRec := List (String × String)
deriving DecidableEq

/-- Python `d.get(k, dflt)` on a storage record. -/
def pyGet (d : StorageRec) (k dflt : String) : String :=
  match Py.dictLook Prod.fst d k with
  | some p => p.2
  | none => dflt

/-- `filter_virtual_devices` (hw_diff_module.py:883-890): drops devices
whose lowered model contains `'virtual hdisk'` or `'ami virtual'`. -/
def filter_virtual_devices (devices : List StorageRec) : List StorageRec :=
  devices.filter (fun d =>
    !(Py.containsSub (Py.lowerL (pyGet d "model" "").toList)
        "virtual hdisk".toList) &&
    !(Py.containsSub (Py.lowerL (pyGet d "model" "").toList)
        "ami virtual".toList))

/-- `group_by_type`'s classification chain (hw_diff_module.py:896-951),
applied to one device; the bucket a device lands in.  NB the source reads
`device.get('device', '')` for the name-prefix checks — the records carry
the key `'name'`, so on collector records `device_name` is always `''`. -/
def bucketOf (d : StorageRec) : String :=
  let device_name := Py.lowerL (pyGet d "device" "").toList
  let model := Py.lowerL (pyGet d "model" "").toList
  let transport := Py.lowerL (pyGet d "transport" "").toList
  if "nvme".toList.isPrefixOf device_name || Py.containsSub model "nvme".toList
  then "nvme"
  else if Py.containsSub model "sas".toList ||
      Py.containsSub transport "sas".toList ||
      ((["seagate", "hitachi", "toshiba"].any
          (fun v => Py.containsSub model v.toList)) &&
        Py.containsSub model "sas".toList) then "sas"
  else if ["raid", "logical", "virtual", "megaraid", "adaptec"].any
      (fun k => Py.containsSub model k.toList) then "raid"
  else if ("sd".toList.isPrefixOf device_name &&
        (["sata", "ata", "ssd"].any (fun k => Py.containsSub model k.toList))) ||
      Py.containsSub transport "sata".toList then "sata"
  else if "mmcblk".toList.isPrefixOf device_name ||
      Py.containsSub model "mmc".toList then "mmc"
  else if Py.containsSub transport "usb".toList ||
      Py.containsSub model "usb".toList then "usb"
  else if "sd".toList.isPrefixOf device_name then
    if Py.containsSub (pyGet d "size" "0").toList "GB".toList then
      match Py.pyFloatOpt (Py.stripWs
          (Py.removeAll "GB".toList (pyGet d "size" "0").toList)) with
      | some q =>
        if 100 < q ∧ ¬ Py.containsSub model "ssd".toList then "sas" else "sata"
      | none => "sata"
    else "sata"
  else "other"

/-- The seven bucket names, in the insertion order of the `groups` dict. -/
def storage_type_keys : List String :=
  ["nvme", "sata", "sas", "mmc", "usb", "raid", "other"]

/-- One bucket of `group_by_type` (hw_diff_module.py:896-951): the devices
landing in bucket `t`, in input order (the source appends in one pass). -/
def group_by_type (devices : List StorageRec) (t : String) : List StorageRec :=
  devices.filter (fun d => bucketOf d = t)

/-- The positional comparison of one type bucket
(hw_diff_module.py:971-993): index `i` from 0 to max−1, missing / extra /
model-mismatch messages. -/
def posDiffs (t : String) (cd bd : List StorageRec) : List String :=
  (List.range (max cd.length bd.length)).foldl (fun acc i =>
    match cd[i]?, bd[i]? with
    | none, some b =>
      acc ++ [String.mk (Py.upperL t.toList) ++ " " ++ toString (i + 1) ++
        ": missing in current (baseline has '" ++ pyGet b "model" "Unknown" ++
        "')"]
    | some c, none =>
      acc ++ [String.mk (Py.upperL t.toList) ++ " " ++ toString (i + 1) ++
        ": extra in current ('" ++ pyGet c "model" "Unknown" ++ "')"]
    | some c, some b =>
      if pyGet c "model" "Unknown" ≠ pyGet b "model" "Unknown" then
        acc ++ [String.mk (Py.upperL t.toList) ++ " " ++ toString (i + 1) ++
          " model mismatch: current='" ++ pyGet c "model" "Unknown" ++
          "', baseline='" ++ pyGet b "model" "Unknown" ++ "'"]
      else acc
    | none, none => acc) []

/-- Result of `compare_storage_devices`: `status` and `differences` (the
per-type count maps and virtual-filter counters, observed by no claim, are
omitted).  Status is PASS iff no difference — storage has no WARNING tier. -/
structure StorCmp where
  status : String
  differences : List String
deriving DecidableEq

/-- One per-type step of the storage loop (hw_diff_module.py:961-993):
bucket-count mismatch message, then the positional comparison of the
bucket. -/
def storTypeStep (cf bf : List StorageRec) (acc : List String)
    (t : String) : List String :=
  (if (group_by_type cf t).length ≠ (group_by_type bf t).length then
    acc ++ [String.mk (Py.upperL t.toList) ++ " count mismatch: current=" ++
      toString (group_by_type cf t).length ++ ", baseline=" ++
      toString (group_by_type bf t).length]
  else acc) ++ posDiffs t (group_by_type cf t) (group_by_type bf t)

/-- `HardwareDiff.compare_storage_devices` (hw_diff_module.py:879-1014):
virtual-media filtering on both sides, type bucketing, then per type a
count check plus the positional model comparison.  (`all_types` is a Python
set, but both group dicts always carry exactly the seven fixed keys, so the
set holds the same seven keys on every call; the fixed insertion-order list
is used here, no claim observing the storage difference order.) -/
def compare_storage_devices (current baseline : List StorageRec) : StorCmp :=
  let ds := storage_type_keys.foldl
    (storTypeStep (filter_virtual_devices current)
      (filter_virtual_devices baseline)) []
  ⟨if ds = [] then "PASS" else "FAIL", ds⟩

end HwDiff

/-- C8 (code bug in the source): `group_by_type` intends name-prefix
bucketing (`nvme*`→nvme, `sd*`→sata/sas, `mmcblk*`→mmc) but reads the key
`'device'`, which storage records do not have — they carry `'name'`
(create_baseline_config.py:158, hw_diff_module.py:151) — so `device_name`
is always `''`, every name-prefix check is dead, and a device named
`nvme0n1` (or `sda`, `mmcblk0`) whose model/transport strings carry no
keyword lands in `other` instead; a record that DID carry a `'device'` key
would be bucketed as the claim says, confirming the wrong-key slip. -/
theorem C8_storage_name_bucket_dead_key :
    HwDiff.bucketOf [("name", "nvme0n1"), ("model", "INTEL SSDPE2KX040T8"),
        ("size", "3.8T"), ("transport", "")] = "other" ∧
    HwDiff.bucketOf [("name", "sda"), ("model", "HGST HUS726T4TALA6L4"),
        ("size", "4TB"), ("transport", "")] = "other" ∧
    HwDiff.bucketOf [("name", "mmcblk0"), ("model", "HBG4a2"),
        ("size", "29.1GB"), ("transport", "")] = "other" ∧
    HwDiff.group_by_type [[("name", "nvme0n1"),
        ("model", "INTEL SSDPE2KX040T8"), ("size", "3.8T"),
        ("transport", "")]] "nvme" = [] ∧
    HwDiff.bucketOf [("device", "nvme0n1"), ("model", "INTEL SSDPE2KX040T8"),
        ("size", "3.8T"), ("transport", "")] = "nvme" ∧
    HwDiff.bucketOf [("device", "sda"), ("model", "HGST HUS726T4TALA6L4"),
        ("size", "4000GB"), ("transport", "")] = "sas" ∧
    HwDiff.bucketOf [("device", "mmcblk0"), ("model", "HBG4a2"),
        ("size", "29.1GB"), ("transport", "")] = "mmc" := by
  refine ⟨by decide, by decide, by decide, by decide, by decide, by decide,
    by decide⟩

namespace HwDiff

/-- `RiserCard` record (collector: hw_diff_module.py:214-335, baseline:
create_baseline_config.py:185-230): all FRU fields present as strings;
`pcie_slots` is a list of which the source only ever reads the length, so
its elements are modelled as opaque strings. -/
structure RiserCard where
  slot : String
  populated : Bool
  fru_product_name : String
  fru_manufacturer : String
  fru_part_number : String
  fru_serial_number : String
  pcie_slots : List String
deriving DecidableEq

/-- The FRU field checks for a slot populated on both sides
(hw_diff_module.py:1059-1103): product name / manufacturer / part number
mismatches; a current serial that is empty or `'Required'`; and a PCIe
sub-slot count mismatch. -/
def fruDiffs (slot : String) (c b : RiserCard) : List String :=
  (if c.fru_product_name ≠ b.fru_product_name then
    ["Slot " ++ slot ++ ": FRU Product Name mismatch - current='" ++
      c.fru_product_name ++ "', baseline='" ++ b.fru_product_name ++ "'"]
  else []) ++
  (if c.fru_manufacturer ≠ b.fru_manufacturer then
    ["Slot " ++ slot ++ ": FRU Manufacturer mismatch - current='" ++
      c.fru_manufacturer ++ "', baseline='" ++ b.fru_manufacturer ++ "'"]
  else []) ++
  (if c.fru_part_number ≠ b.fru_part_number then
    ["Slot " ++ slot ++ ": FRU Part Number mismatch - current='" ++
      c.fru_part_number ++ "', baseline='" ++ b.fru_part_number ++ "'"]
  else []) ++
  (if c.fru_serial_number = "" ∨ c.fru_serial_number = "Required" then
    ["Slot " ++ slot ++ ": FRU Serial Number missing or invalid - current='" ++
      c.fru_serial_number ++ "'"]
  else []) ++
  (if c.pcie_slots.length ≠ b.pcie_slots.length then
    ["Slot " ++ slot ++ ": PCIe slots count mismatch - current=" ++
      toString c.pcie_slots.length ++ ", baseline=" ++
      toString b.pcie_slots.length]
  else [])

/-- The `for slot in sorted(all_slots)` loop of `compare_riser_cards`
(hw_diff_module.py:1029-1103), threading differences and the two populated
counters.  Missing/extra slots short-circuit; the populated counters only
count slots present on BOTH sides (the source increments after the
missing/extra `continue`s); a population-flag mismatch short-circuits the
FRU checks. -/
def riserLoop (curL baseL : String → Option RiserCard) :
    List String → List String → Nat → Nat → List String × Nat × Nat
  | [], ds, pc, pb => (ds, pc, pb)
  | slot :: rest, ds, pc, pb =>
    match curL slot, baseL slot with
    | none, _ =>
      riserLoop curL baseL rest
        (ds ++ ["Slot " ++ slot ++ ": Missing in current configuration"]) pc pb
    | some _, none =>
      riserLoop curL baseL rest
        (ds ++ ["Slot " ++ slot ++ ": Extra riser found (not in baseline)"])
        pc pb
    | some c, some b =>
      riserLoop curL baseL rest
        (if c.populated ≠ b.populated then
          ds ++ ["Slot " ++ slot ++ ": Population status mismatch - current=" ++
            (if c.populated then "populated" else "empty") ++ ", baseline=" ++
            (if b.populated then "populated" else "empty")]
        else if c.populated && b.populated then ds ++ fruDiffs slot c b
        else ds)
        (if c.populated then pc + 1 else pc)
        (if b.populated then pb + 1 else pb)

/-- The post-hoc critical-phrase set (hw_diff_module.py:1116-1119). -/
def riser_critical_keywords : List String :=
  ["missing in current", "fru serial number missing",
   "populated risers mismatch", "population status mismatch"]

/-- Result of `compare_riser_cards`: `status`, `differences`,
`critical_differences` and the two populated counters (the raw slot-count
fields, observed by no claim, are omitted). -/
structure RiserCmp where
  status : String
  differences : List String
  critical_differences : List String
  populated_current : Nat
  populated_baseline : Nat
deriving DecidableEq

/-- `HardwareDiff.compare_riser_cards` (hw_diff_module.py:1016-1138):
sorted-slot reconciliation, total-populated check, then the post-hoc
promotion of any difference whose lowered text contains a critical phrase;
FAIL iff a critical difference exists, WARNING iff any difference exists,
else PASS. -/
def compare_riser_cards (current baseline : List RiserCard) : RiserCmp :=
  let out := riserLoop (Py.dictLook (·.slot) current)
    (Py.dictLook (·.slot) baseline)
    (Py.sortedKeys (current.map (·.slot) ++ baseline.map (·.slot))) [] 0 0
  let ds := if out.2.1 ≠ out.2.2 then
      out.1 ++ ["Total populated risers mismatch: current=" ++
        toString out.2.1 ++ ", baseline=" ++ toString out.2.2]
    else out.1
  let crit := ds.filter (fun dmsg => riser_critical_keywords.any
    (fun k => Py.containsSub (Py.lowerL dmsg.toList) k.toList))
  ⟨if crit ≠ [] then "FAIL" else if ds ≠ [] then "WARNING" else "PASS",
    ds, crit, out.2.1, out.2.2⟩

/-- `dictLook` finds a record exactly when the key occurs. -/
theorem dictLook_isSome {α : Type} (key : α → String) (xs : List α)
    (k : String) : (Py.dictLook key xs k).isSome ↔ k ∈ xs.map key := by
  unfold Py.dictLook
  rw [List.find?_isSome]
  constructor
  · rintro ⟨x, hx, he⟩
    exact List.mem_map.mpr ⟨x, List.mem_reverse.mp hx, of_decide_eq_true he⟩
  · intro hm
    obtain ⟨x, hx, he⟩ := List.mem_map.mp hm
    exact ⟨x, List.mem_reverse.mpr hx, decide_eq_true he⟩

/-- Self-comparison of the riser slot loop: with every slot resolvable and
every populated riser carrying a valid serial, no difference is emitted and
both populated counters grow by the same amount. -/
theorem riserLoop_self (look : String → Option RiserCard) (slots : List String)
    (h1 : ∀ s ∈ slots, (look s).isSome)
    (h2 : ∀ s ∈ slots, ∀ r, look s = some r → r.populated = true →
      r.fru_serial_number ≠ "" ∧ r.fru_serial_number ≠ "Required")
    (ds : List String) (pc pb : Nat) :
    ∃ k, riserLoop look look slots ds pc pb = (ds, pc + k, pb + k) := by
  induction slots generalizing ds pc pb with
  | nil => exact ⟨0, rfl⟩
  | cons s rest ih =>
    obtain ⟨r, hr⟩ :=
      Option.isSome_iff_exists.mp (h1 s (List.mem_cons_self _ _))
    have ih2 := ih (fun x hx => h1 x (List.mem_cons_of_mem _ hx))
      (fun x hx => h2 x (List.mem_cons_of_mem _ hx))
    rw [riserLoop, hr]
    by_cases hp : r.populated
    · have hser := h2 s (List.mem_cons_self _ _) r hr hp
      have hfru : fruDiffs s r r = [] := by
        simp [fruDiffs, hser.1, hser.2]
      simp only [ne_eq, not_true_eq_false, if_false, hp, Bool.and_self,
        if_true, hfru, List.append_nil]
      obtain ⟨k, hk⟩ := ih2 ds (pc + 1) (pb + 1)
      exact ⟨k + 1, by rw [hk]; simp [Prod.ext_iff]; omega⟩
    · simp only [ne_eq, not_true_eq_false, if_false, hp, Bool.and_self,
        Bool.false_and, if_true]
      obtain ⟨k, hk⟩ := ih2 ds pc pb
      exact ⟨k, hk⟩

end HwDiff

namespace HwDiff

/-- Memory self-comparison: identical inputs give PASS and no differences. -/
theorem compare_memory_self (L : List MemoryModule) :
    (compare_memory L L).status = "PASS" ∧
    (compare_memory L L).differences = [] := by
  simp only [compare_memory, ne_eq, eq_self_iff_true, not_true_eq_false,
    if_false]
  exact ⟨(memSlotLoop_self _ _ _ _ _).1, (memSlotLoop_self _ _ _ _ _).2⟩

/-- Processor self-comparison: for any enumeration of the socket union,
identical inputs give PASS, no differences, and all sockets MATCH. -/
theorem compare_processors_self (order : List String) (L : List Processor)
    (h : ∀ s ∈ order, s ∈ L.map (·.socket)) :
    compare_processors order L L =
      .ok ⟨"PASS", [], order.map (fun s => (s, "MATCH"))⟩ := by
  unfold compare_processors
  rw [procLoop_self _ _
    (fun s hs => (dictLook_isSome (·.socket) L s).mpr (h s hs))]
  simp [Except.map]

/-- PCI self-comparison: for any enumeration of the critical-BDF union
drawn from the devices, identical inputs give PASS and no differences. -/
theorem compare_pci_self (orderB : List String) (L : List PciDevice)
    (h : ∀ b ∈ orderB, b ∈ L.map (·.bdf)) :
    compare_pci_devices orderB L L = ⟨"PASS", []⟩ := by
  simp only [compare_pci_devices]
  rw [Py.foldlFixed _ _ _ (fun acc b hb => by
    obtain ⟨cur, hcur⟩ := Option.isSome_iff_exists.mp
      ((dictLook_isSome (·.bdf) L b).mpr (h b hb))
    simp [pciBdfStep, hcur])]
  rw [Py.foldlFixed _ _ _ (fun acc c hc => by simp [pciNewClassStep, hc])]
  rw [Py.foldlFixed _ _ _ (fun acc c _ => by simp [pciClassStep])]

/-- USB self-comparison: identical inputs give PASS and no differences for
any VID:PID enumeration (all per-key counts coincide). -/
theorem compare_usb_self (orderU : List String) (L : List UsbDevice) :
    (compare_usb_devices orderU L L).status = "PASS" ∧
    (compare_usb_devices orderU L L).differences = [] := by
  simp only [compare_usb_devices]
  rw [Py.foldlFixed _ _ _ (fun acc v _ => by simp [usbVidStep])]
  exact ⟨rfl, rfl⟩

/-- Positional bucket comparison of a bucket against itself is empty. -/
theorem posDiffs_self (t : String) (X : List StorageRec) :
    posDiffs t X X = [] := by
  unfold posDiffs
  apply Py.foldlFixed
  intro acc i _
  cases h : X[i]? with
  | none => simp [h]
  | some c => simp [h]

/-- Storage self-comparison: identical inputs give PASS and no differences. -/
theorem compare_storage_self (L : List StorageRec) :
    compare_storage_devices L L = ⟨"PASS", []⟩ := by
  simp only [compare_storage_devices]
  rw [Py.foldlFixed _ _ _ (fun acc t _ => by
    simp [storTypeStep, posDiffs_self])]
  simp

/-- Riser self-comparison, under the proviso that every populated riser
carries a serial that is nonempty and not the `'Required'` placeholder
(without it the serial check of hw_diff_module.py:1087-1093 fires even
against an identical copy — see the C2 counterexample). -/
theorem compare_riser_self (L : List RiserCard)
    (hser : ∀ r ∈ L, r.populated = true →
      r.fru_serial_number ≠ "" ∧ r.fru_serial_number ≠ "Required") :
    (compare_riser_cards L L).status = "PASS" ∧
    (compare_riser_cards L L).differences = [] := by
  have h1 : ∀ s ∈ Py.sortedKeys (L.map (·.slot) ++ L.map (·.slot)),
      (Py.dictLook (·.slot) L s).isSome := by
    intro s hs
    rw [dictLook_isSome]
    have hm := Py.mem_sortedKeys.mp hs
    simpa using hm
  have h2 : ∀ s ∈ Py.sortedKeys (L.map (·.slot) ++ L.map (·.slot)),
      ∀ r, Py.dictLook (·.slot) L s = some r → r.populated = true →
      r.fru_serial_number ≠ "" ∧ r.fru_serial_number ≠ "Required" := by
    intro s _ r hr hp
    unfold Py.dictLook at hr
    exact hser r (List.mem_reverse.mp (List.mem_of_find?_eq_some hr)) hp
  obtain ⟨k, hk⟩ := riserLoop_self (Py.dictLook (·.slot) L) _ h1 h2 [] 0 0
  simp only [compare_riser_cards, hk]
  simp

end HwDiff

/-- C2 counterexample: a populated riser whose FRU serial is the `'Required'`
placeholder is flagged by `compare_riser_cards` even against an identical
copy of itself; the message is in the critical-phrase set, so the status is
FAIL, not PASS, and the differences list is nonempty. -/
theorem C2_reflexivity_counterexample :
    (HwDiff.compare_riser_cards
        [⟨"RISER_SLOT_1", true, "RSMB-R1", "ACME", "PN-1", "Required",
          ["s1", "s2"]⟩]
        [⟨"RISER_SLOT_1", true, "RSMB-R1", "ACME", "PN-1", "Required",
          ["s1", "s2"]⟩]).status = "FAIL" ∧
    (HwDiff.compare_riser_cards
        [⟨"RISER_SLOT_1", true, "RSMB-R1", "ACME", "PN-1", "Required",
          ["s1", "s2"]⟩]
        [⟨"RISER_SLOT_1", true, "RSMB-R1", "ACME", "PN-1", "Required",
          ["s1", "s2"]⟩]).differences ≠ [] := by
  refine ⟨by decide, by decide⟩

/-- C2 (amended): comparing any snapshot to an identical copy of itself
yields PASS and zero differences for the processor, memory, PCI, USB and
storage comparators (for processor/PCI over any enumeration of the
respective key union); for the riser comparator this holds provided every
populated riser's FRU serial number is nonempty and not the `'Required'`
placeholder — otherwise the serial check fires even on identical copies. -/
theorem C2_comparators_reflexive_amended :
    (∀ (order : List String) (L : List HwDiff.Processor),
      (∀ s ∈ order, s ∈ L.map (·.socket)) →
      HwDiff.compare_processors order L L =
        .ok ⟨"PASS", [], order.map (fun s => (s, "MATCH"))⟩) ∧
    (∀ L : List HwDiff.MemoryModule,
      (HwDiff.compare_memory L L).status = "PASS" ∧
      (HwDiff.compare_memory L L).differences = []) ∧
    (∀ (orderB : List String) (L : List HwDiff.PciDevice),
      (∀ b ∈ orderB, b ∈ L.map (·.bdf)) →
      HwDiff.compare_pci_devices orderB L L = ⟨"PASS", []⟩) ∧
    (∀ (orderU : List String) (L : List HwDiff.UsbDevice),
      (HwDiff.compare_usb_devices orderU L L).status = "PASS" ∧
      (HwDiff.compare_usb_devices orderU L L).differences = []) ∧
    (∀ L : List HwDiff.StorageRec,
      HwDiff.compare_storage_devices L L = ⟨"PASS", []⟩) ∧
    (∀ L : List HwDiff.RiserCard,
      (∀ r ∈ L, r.populated = true →
        r.fru_serial_number ≠ "" ∧ r.fru_serial_number ≠ "Required") →
      (HwDiff.compare_riser_cards L L).status = "PASS" ∧
      (HwDiff.compare_riser_cards L L).differences = []) :=
  ⟨fun order L h => HwDiff.compare_processors_self order L h,
   HwDiff.compare_memory_self,
   fun orderB L h => HwDiff.compare_pci_self orderB L h,
   HwDiff.compare_usb_self,
   HwDiff.compare_storage_self,
   fun L h => HwDiff.compare_riser_self L h⟩

/-- Witness for C2 amended, at one concrete record per comparator. -/
theorem C2_comparators_reflexive_amended_witness :
    HwDiff.compare_processors ["CPU0"]
        [⟨"CPU0", "Xeon 6430", .num 32, .num 64⟩]
        [⟨"CPU0", "Xeon 6430", .num 32, .num 64⟩] =
      .ok ⟨"PASS", [], [("CPU0", "MATCH")]⟩ ∧
    ((HwDiff.compare_memory [⟨"DIMM0", "32 GB", true⟩]
        [⟨"DIMM0", "32 GB", true⟩]).status = "PASS" ∧
      (HwDiff.compare_memory [⟨"DIMM0", "32 GB", true⟩]
        [⟨"DIMM0", "32 GB", true⟩]).differences = []) ∧
    HwDiff.compare_pci_devices ["00:1f.2"]
        [⟨"00:1f.2", "Intel SATA", "SATA controller [0106]", "x4", "8GT/s"⟩]
        [⟨"00:1f.2", "Intel SATA", "SATA controller [0106]", "x4", "8GT/s"⟩] =
      ⟨"PASS", []⟩ ∧
    ((HwDiff.compare_usb_devices ["8087:0024"]
        [⟨"001", "002", "8087:0024", "Intel Hub", ""⟩]
        [⟨"001", "002", "8087:0024", "Intel Hub", ""⟩]).status = "PASS" ∧
      (HwDiff.compare_usb_devices ["8087:0024"]
        [⟨"001", "002", "8087:0024", "Intel Hub", ""⟩]
        [⟨"001", "002", "8087:0024", "Intel Hub", ""⟩]).differences = []) ∧
    HwDiff.compare_storage_devices
        [[("name", "sda"), ("model", "SAMSUNG SSD"), ("size", "500GB"),
          ("transport", "sata")]]
        [[("name", "sda"), ("model", "SAMSUNG SSD"), ("size", "500GB"),
          ("transport", "sata")]] = ⟨"PASS", []⟩ ∧
    ((HwDiff.compare_riser_cards
        [⟨"RISER_SLOT_1", true, "RSMB-R1", "ACME", "PN-1", "SN0001",
          ["s1", "s2"]⟩]
        [⟨"RISER_SLOT_1", true, "RSMB-R1", "ACME", "PN-1", "SN0001",
          ["s1", "s2"]⟩]).status = "PASS" ∧
      (HwDiff.compare_riser_cards
        [⟨"RISER_SLOT_1", true, "RSMB-R1", "ACME", "PN-1", "SN0001",
          ["s1", "s2"]⟩]
        [⟨"RISER_SLOT_1", true, "RSMB-R1", "ACME", "PN-1", "SN0001",
          ["s1", "s2"]⟩]).differences = []) :=
  ⟨C2_comparators_reflexive_amended.1 ["CPU0"] _ (by decide),
   C2_comparators_reflexive_amended.2.1 _,
   C2_comparators_reflexive_amended.2.2.1 ["00:1f.2"] _ (by decide),
   C2_comparators_reflexive_amended.2.2.2.1 ["8087:0024"] _,
   C2_comparators_reflexive_amended.2.2.2.2.1 _,
   C2_comparators_reflexive_amended.2.2.2.2.2 _ (by decide)⟩

/-- C9 (amended): the comparators the source iterates with `sorted(...)`
run in deterministic ascending key order — observable on the memory
comparator, whose `slot_comparison` detail list is sorted by slot for ALL
inputs; the processor, PCI and USB comparators instead iterate a Python
set union whose enumeration order is unspecified, so their difference
order is not sorted-deterministic (see the counterexample). -/
theorem C9_memory_iteration_sorted_amended
    (cur base : List HwDiff.MemoryModule) :
    List.Sorted Py.strLeP
      ((HwDiff.compare_memory cur base).slot_comparison.map Prod.fst) := by
  simp only [HwDiff.compare_memory]
  rw [HwDiff.memSlotLoop_fst_slots]
  simpa using Py.sortedKeys_sorted _

namespace SensorVal

/-- `SensorReading` as parsed from `ipmitool sensor list`
(sensor_validator.py:114-129): `value`, `unit`, `status` raw strings. -/
structure SensorData where
  value : String
  unit : String
  status : String
deriving DecidableEq

/-- `_is_sensor_status_ok` (sensor_validator.py:41-51): lowered status in
`{'ok', 'nc'}`. -/
def is_sensor_status_ok (st : String) : Bool :=
  Py.lowerL st.toList = "ok".toList || Py.lowerL st.toList = "nc".toList

/-- `_is_sensor_status_warning` (sensor_validator.py:53-63): lowered status
in `{'nr', 'ns'}`. -/
def is_sensor_status_warning (st : String) : Bool :=
  Py.lowerL st.toList = "nr".toList || Py.lowerL st.toList = "ns".toList

/-- `_parse_sensor_value` (sensor_validator.py:65-88): sentinel strings map
to `none`; otherwise the decimal comma is replaced by a dot and the string
parsed as a float, parse failure also giving `none` (never raises). -/
def parse_sensor_value (value_str : String) : Option Rat :=
  if (["na", "disabled", "n/a", "not available", "not specified", "unknown",
      ""].map (fun s => s.toList)).contains
      (Py.stripWs (Py.lowerL value_str.toList)) then none
  else Py.pyFloatOpt
    (value_str.toList.map (fun c => if c = ',' then '.' else c))

/-- One violation record: the `sensor` and `type` keys (messages, values
and limits carried in the Python dicts are observed by no claim and are
omitted; the fan/power violation dicts carry no `type` key at all — their
`vtype` here is `""`). -/
structure Violation where
  sensor : String
  vtype : String
deriving DecidableEq

/-- `_create_validation_result_dict` (sensor_validator.py:134-145) plus the
final per-category `status`. -/
structure CatResult where
  actually_checked : Nat
  passed_sensors : Nat
  warning_sensors : Nat
  failed_sensors : Nat
  missing_sensors : Nat
  skipped_sensors : Nat
  violations : List Violation
  status : String
deriving DecidableEq

/-- The factory dict: all counters 0, no violations, status `'PASS'`. -/
def mkResult : CatResult := ⟨0, 0, 0, 0, 0, 0, [], "PASS"⟩

/-- `voltage_limits` entry `{min, max, warn_min, warn_max}`; absent keys are
`none` (`limits.get(...)` returns `None`). -/
structure VoltLimit where
  vmin : Option Rat
  vmax : Option Rat
  warn_min : Option Rat
  warn_max : Option Rat
deriving DecidableEq

/-- `temperature_limits` entry `{min, max, warn}`. -/
structure TempLimit where
  tmin : Option Rat
  tmax : Option Rat
  warn : Option Rat
deriving DecidableEq

/-- `validation_rules` name lists. -/
structure ValidationRules where
  critical_sensors : List String
  optional_sensors : List String
deriving DecidableEq

/-- `discrete_sensors` configuration: per-sensor acceptable status lists
and the critical-if-different name list. -/
structure DiscreteCfg where
  acceptable_statuses : List (String × List String)
  critical_if_different : List String
deriving DecidableEq

/-- The live sensors map, keyed by sensor name (a Python dict). -/
def Sensors := List (String × SensorData)

/-- `Python limits.get('min') is not None and v < min`. -/
def ltOpt (v : Rat) (o : Option Rat) : Bool :=
  match o with
  | some m => decide (v < m)
  | none => false

/-- `Python limits.get('max') is not None and v > max`. -/
def gtOpt (v : Rat) (o : Option Rat) : Bool :=
  match o with
  | some m => decide (m < v)
  | none => false

/-- One iteration of the voltage loop (sensor_validator.py:153-248):
comment key skipped; missing sensor counted and reported; `value == 'na'`
→ UNAVAILABLE; bad status → STATUS_WARNING / STATUS_ERROR; parse failure →
PARSE_ERROR; then hard min/max before soft warn bounds. -/
def voltStep (sensors : Sensors) (r : CatResult) (p : String × VoltLimit) :
    CatResult :=
  if p.1 = "comment" then r
  else match Py.dictLook Prod.fst sensors p.1 with
  | none =>
    { r with missing_sensors := r.missing_sensors + 1,
             violations := r.violations ++ [⟨p.1, "MISSING"⟩] }
  | some pr =>
    let sd := pr.2
    let r1 := { r with actually_checked := r.actually_checked + 1 }
    if sd.value = "na" then
      { r1 with violations := r1.violations ++ [⟨p.1, "UNAVAILABLE"⟩] }
    else if ¬ is_sensor_status_ok sd.status then
      if is_sensor_status_warning sd.status then
        { r1 with warning_sensors := r1.warning_sensors + 1,
                  violations := r1.violations ++ [⟨p.1, "STATUS_WARNING"⟩] }
      else { r1 with violations := r1.violations ++ [⟨p.1, "STATUS_ERROR"⟩] }
    else match parse_sensor_value sd.value with
    | none => { r1 with violations := r1.violations ++ [⟨p.1, "PARSE_ERROR"⟩] }
    | some v =>
      if ltOpt v p.2.vmin then
        { r1 with failed_sensors := r1.failed_sensors + 1,
                  violations := r1.violations ++ [⟨p.1, "UNDERVOLTAGE"⟩] }
      else if gtOpt v p.2.vmax then
        { r1 with failed_sensors := r1.failed_sensors + 1,
                  violations := r1.violations ++ [⟨p.1, "OVERVOLTAGE"⟩] }
      else if ltOpt v p.2.warn_min then
        { r1 with warning_sensors := r1.warning_sensors + 1,
                  violations := r1.violations ++ [⟨p.1, "VOLTAGE_WARNING_LOW"⟩] }
      else if gtOpt v p.2.warn_max then
        { r1 with warning_sensors := r1.warning_sensors + 1,
                  violations := r1.violations ++ [⟨p.1, "VOLTAGE_WARNING_HIGH"⟩] }
      else { r1 with passed_sensors := r1.passed_sensors + 1 }

/-- `validate_voltage_sensors` (sensor_validator.py:147-256): the loop, then
status FAIL if any failed, else WARNING if any missing or warning, else the
factory PASS. -/
def validate_voltage_sensors (voltage_limits : List (String × VoltLimit))
    (sensors : Sensors) : CatResult :=
  let r := voltage_limits.foldl (voltStep sensors) mkResult
  { r with status :=
      if r.failed_sensors > 0 then "FAIL"
      else if r.missing_sensors > 0 ∨ r.warning_sensors > 0 then "WARNING"
      else r.status }

/-- One iteration of the temperature loop (sensor_validator.py:264-390):
missing sensors are triaged critical/optional/unknown; `value == 'na'` is
triaged by status (`nc`/`nr` empty slot, `ok` inconsistency WARNING,
otherwise optional-skip or UNAVAILABLE); then status check, parse, and
hard min/max before the single-sided soft warn. -/
def tempStep (rules : ValidationRules) (sensors : Sensors) (r : CatResult)
    (p : String × TempLimit) : CatResult :=
  if p.1 = "comment" then r
  else match Py.dictLook Prod.fst sensors p.1 with
  | none =>
    if p.1 ∈ rules.critical_sensors then
      { r with missing_sensors := r.missing_sensors + 1,
               violations := r.violations ++ [⟨p.1, "MISSING_CRITICAL"⟩] }
    else if p.1 ∈ rules.optional_sensors then
      { r with skipped_sensors := r.skipped_sensors + 1 }
    else
      { r with missing_sensors := r.missing_sensors + 1,
               violations := r.violations ++ [⟨p.1, "MISSING"⟩] }
  | some pr =>
    let sd := pr.2
    let r1 := { r with actually_checked := r.actually_checked + 1 }
    if sd.value = "na" then
      if Py.lowerL sd.status.toList = "nc".toList ∨
          Py.lowerL sd.status.toList = "nr".toList then
        { r1 with skipped_sensors := r1.skipped_sensors + 1 }
      else if Py.lowerL sd.status.toList = "ok".toList then
        { r1 with warning_sensors := r1.warning_sensors + 1,
                  violations :=
                    r1.violations ++ [⟨p.1, "SENSOR_DATA_INCONSISTENT"⟩] }
      else if p.1 ∈ rules.optional_sensors then
        { r1 with skipped_sensors := r1.skipped_sensors + 1 }
      else { r1 with violations := r1.violations ++ [⟨p.1, "UNAVAILABLE"⟩] }
    else if ¬ is_sensor_status_ok sd.status then
      if is_sensor_status_warning sd.status then
        { r1 with warning_sensors := r1.warning_sensors + 1,
                  violations := r1.violations ++ [⟨p.1, "STATUS_WARNING"⟩] }
      else { r1 with violations := r1.violations ++ [⟨p.1, "STATUS_ERROR"⟩] }
    else match parse_sensor_value sd.value with
    | none => { r1 with violations := r1.violations ++ [⟨p.1, "PARSE_ERROR"⟩] }
    | some v =>
      if ltOpt v p.2.tmin then
        { r1 with failed_sensors := r1.failed_sensors + 1,
                  violations := r1.violations ++ [⟨p.1, "UNDERTEMPERATURE"⟩] }
      else if gtOpt v p.2.tmax then
        { r1 with failed_sensors := r1.failed_sensors + 1,
                  violations := r1.violations ++ [⟨p.1, "OVERTEMPERATURE"⟩] }
      else if gtOpt v p.2.warn then
        { r1 with warning_sensors := r1.warning_sensors + 1,
                  violations := r1.violations ++ [⟨p.1, "WARNING_TEMPERATURE"⟩] }
      else { r1 with passed_sensors := r1.passed_sensors + 1 }

/-- `validate_temperature_sensors` (sensor_validator.py:258-398). -/
def validate_temperature_sensors (rules : ValidationRules)
    (temp_limits : List (String × TempLimit)) (sensors : Sensors) :
    CatResult :=
  let r := temp_limits.foldl (tempStep rules sensors) mkResult
  { r with status :=
      if r.failed_sensors > 0 then "FAIL"
      else if r.warning_sensors > 0 ∨ r.missing_sensors > 0 then "WARNING"
      else r.status }

/-- The fixed-range check shared by fan (100–20000 RPM) and power
(0–2000 W) sensors; a warning-status fan/power sensor still reaches this
check (the source's warning branch has no `continue`). -/
def rangeCheck (name : String) (lo hi v : Rat) (r : CatResult) : CatResult :=
  if v < lo ∨ hi < v then
    { r with failed_sensors := r.failed_sensors + 1,
             violations := r.violations ++ [⟨name, ""⟩] }
  else { r with passed_sensors := r.passed_sensors + 1 }

/-- One iteration of the fan loop (sensor_validator.py:404-437): only
sensors whose unit is `rpm`; unparsable value → skipped; non-ok status is
either WARNING (and then still range-checked) or FAIL; then the fixed
100–20000 RPM range. -/
def fanStep (r : CatResult) (p : String × SensorData) : CatResult :=
  if Py.lowerL p.2.unit.toList = "rpm".toList then
    let r1 := { r with actually_checked := r.actually_checked + 1 }
    match parse_sensor_value p.2.value with
    | none => { r1 with skipped_sensors := r1.skipped_sensors + 1 }
    | some v =>
      if ¬ is_sensor_status_ok p.2.status then
        if is_sensor_status_warning p.2.status then
          rangeCheck p.1 100 20000 v
            { r1 with warning_sensors := r1.warning_sensors + 1 }
        else
          { r1 with failed_sensors := r1.failed_sensors + 1,
                    violations := r1.violations ++ [⟨p.1, ""⟩] }
      else rangeCheck p.1 100 20000 v r1
  else r

/-- `validate_fan_sensors` (sensor_validator.py:400-447): status FAIL if
any failed, else WARNING if any warning, else PASS (missing plays no role:
the loop iterates the live map, nothing can be missing). -/
def validate_fan_sensors (sensors : Sensors) : CatResult :=
  let r := sensors.foldl fanStep mkResult
  { r with status :=
      if r.failed_sensors > 0 then "FAIL"
      else if r.warning_sensors > 0 then "WARNING"
      else "PASS" }

/-- One iteration of the power loop (sensor_validator.py:453-486): unit
`watts`, fixed 0–2000 W range, otherwise as the fan loop. -/
def powerStep (r : CatResult) (p : String × SensorData) : CatResult :=
  if Py.lowerL p.2.unit.toList = "watts".toList then
    let r1 := { r with actually_checked := r.actually_checked + 1 }
    match parse_sensor_value p.2.value with
    | none => { r1 with skipped_sensors := r1.skipped_sensors + 1 }
    | some v =>
      if ¬ is_sensor_status_ok p.2.status then
        if is_sensor_status_warning p.2.status then
          rangeCheck p.1 0 2000 v
            { r1 with warning_sensors := r1.warning_sensors + 1 }
        else
          { r1 with failed_sensors := r1.failed_sensors + 1,
                    violations := r1.violations ++ [⟨p.1, ""⟩] }
      else rangeCheck p.1 0 2000 v r1
  else r

/-- `validate_power_sensors` (sensor_validator.py:449-496). -/
def validate_power_sensors (sensors : Sensors) : CatResult :=
  let r := sensors.foldl powerStep mkResult
  { r with status :=
      if r.failed_sensors > 0 then "FAIL"
      else if r.warning_sensors > 0 then "WARNING"
      else "PASS" }

/-- One iteration of the discrete loop (sensor_validator.py:506-540): a
missing sensor appends a MISSING violation but — unlike every other
category — does NOT touch `missing_sensors`; a present sensor passes when
its raw status is in the per-sensor whitelist, otherwise FAIL when listed
critical-if-different, else WARNING. -/
def discreteStep (critical : List String) (sensors : Sensors)
    (r : CatResult) (p : String × List String) : CatResult :=
  match Py.dictLook Prod.fst sensors p.1 with
  | none => { r with violations := r.violations ++ [⟨p.1, "MISSING"⟩] }
  | some pr =>
    let r1 := { r with actually_checked := r.actually_checked + 1 }
    if pr.2.status ∈ p.2 then
      { r1 with passed_sensors := r1.passed_sensors + 1 }
    else if p.1 ∈ critical then
      { r1 with failed_sensors := r1.failed_sensors + 1,
                violations := r1.violations ++ [⟨p.1, "CRITICAL_STATUS"⟩] }
    else
      { r1 with warning_sensors := r1.warning_sensors + 1,
                violations := r1.violations ++ [⟨p.1, "WARNING_STATUS"⟩] }

/-- `validate_discrete_sensors` (sensor_validator.py:498-548): status FAIL
if any failed, else WARNING if any warning — `missing_sensors` (always 0
here) is consulted by no branch, so missing-only results stay PASS. -/
def validate_discrete_sensors (cfg : DiscreteCfg) (sensors : Sensors) :
    CatResult :=
  let r := cfg.acceptable_statuses.foldl
    (discreteStep cfg.critical_if_different sensors) mkResult
  { r with status :=
      if r.failed_sensors > 0 then "FAIL"
      else if r.warning_sensors > 0 then "WARNING"
      else r.status }

/-- The voltage loop body never writes the status field. -/
theorem voltStep_status (s : Sensors) (r : CatResult)
    (p : String × VoltLimit) : (voltStep s r p).status = r.status := by
  unfold voltStep
  dsimp only
  repeat' split
  all_goals rfl

/-- The temperature loop body never writes the status field. -/
theorem tempStep_status (ru : ValidationRules) (s : Sensors) (r : CatResult)
    (p : String × TempLimit) : (tempStep ru s r p).status = r.status := by
  unfold tempStep
  dsimp only
  repeat' split
  all_goals rfl

/-- The discrete loop body never writes the status field. -/
theorem discreteStep_status (critical : List String) (s : Sensors)
    (r : CatResult) (p : String × List String) :
    (discreteStep critical s r p).status = r.status := by
  unfold discreteStep
  dsimp only
  repeat' split
  all_goals rfl

/-- Folding a status-preserving step preserves the status field. -/
theorem foldl_status_invariant {α : Type} (f : CatResult → α → CatResult)
    (l : List α) (r : CatResult) (h : ∀ r a, (f r a).status = r.status) :
    (l.foldl f r).status = r.status := by
  induction l generalizing r with
  | nil => rfl
  | cons x xs ih => rw [List.foldl_cons, ih, h]

/-- In a discrete run where every configured sensor is absent from the live
map, each step only appends a MISSING violation. -/
theorem discreteLoop_all_missing (critical : List String) (sensors : Sensors)
    (cfg : List (String × List String))
    (h : ∀ p ∈ cfg, Py.dictLook Prod.fst sensors p.1 = none)
    (r : CatResult) :
    cfg.foldl (discreteStep critical sensors) r =
      { r with violations :=
          r.violations ++ cfg.map (fun p => ⟨p.1, "MISSING"⟩) } := by
  induction cfg generalizing r with
  | nil => simp
  | cons p rest ih =>
    rw [List.foldl_cons]
    have hp := h p (List.mem_cons_self _ _)
    simp only [discreteStep, hp]
    rw [ih (fun q hq => h q (List.mem_cons_of_mem _ hq))]
    simp

end SensorVal

/-- C5 counterexample: a discrete configuration with one sensor and an
empty live map — the only finding is a MISSING violation, all counters are
zero, and the status is PASS, not the WARNING the claim requires. -/
theorem C5_discrete_missing_counterexample :
    (SensorVal.validate_discrete_sensors
        ⟨[("PS1_Status", ["ok"])], ["PS1_Status"]⟩ []).violations =
      [⟨"PS1_Status", "MISSING"⟩] ∧
    (SensorVal.validate_discrete_sensors
        ⟨[("PS1_Status", ["ok"])], ["PS1_Status"]⟩ []).status = "PASS" ∧
    (SensorVal.validate_discrete_sensors
        ⟨[("PS1_Status", ["ok"])], ["PS1_Status"]⟩ []).status ≠ "WARNING" := by
  refine ⟨by decide, by decide, by decide⟩

/-- C5 (amended): the voltage and temperature validators derive their
status as FAIL if any failed sensor, else WARNING if any missing or warning
sensor, else PASS; the fan, power and discrete validators ignore missing
sensors in the derivation (FAIL if any failed, else WARNING if any warning,
else PASS) — in particular a discrete result whose only findings are
MISSING sensors (no present sensor failing or warning) has status PASS with
one MISSING violation per configured sensor. -/
theorem C5_category_status_derivation_amended :
    (∀ (vl : List (String × SensorVal.VoltLimit)) (s : SensorVal.Sensors),
      (SensorVal.validate_voltage_sensors vl s).status =
        (if (SensorVal.validate_voltage_sensors vl s).failed_sensors > 0 then
          "FAIL"
        else if (SensorVal.validate_voltage_sensors vl s).missing_sensors > 0 ∨
            (SensorVal.validate_voltage_sensors vl s).warning_sensors > 0 then
          "WARNING"
        else "PASS")) ∧
    (∀ (ru : SensorVal.ValidationRules)
      (tl : List (String × SensorVal.TempLimit)) (s : SensorVal.Sensors),
      (SensorVal.validate_temperature_sensors ru tl s).status =
        (if (SensorVal.validate_temperature_sensors ru tl s).failed_sensors >
            0 then "FAIL"
        else if (SensorVal.validate_temperature_sensors ru tl
              s).warning_sensors > 0 ∨
            (SensorVal.validate_temperature_sensors ru tl s).missing_sensors >
              0 then "WARNING"
        else "PASS")) ∧
    (∀ s : SensorVal.Sensors,
      (SensorVal.validate_fan_sensors s).status =
        (if (SensorVal.validate_fan_sensors s).failed_sensors > 0 then "FAIL"
        else if (SensorVal.validate_fan_sensors s).warning_sensors > 0 then
          "WARNING"
        else "PASS")) ∧
    (∀ s : SensorVal.Sensors,
      (SensorVal.validate_power_sensors s).status =
        (if (SensorVal.validate_power_sensors s).failed_sensors > 0 then
          "FAIL"
        else if (SensorVal.validate_power_sensors s).warning_sensors > 0 then
          "WARNING"
        else "PASS")) ∧
    (∀ (cfg : SensorVal.DiscreteCfg) (s : SensorVal.Sensors),
      (SensorVal.validate_discrete_sensors cfg s).status =
        (if (SensorVal.validate_discrete_sensors cfg s).failed_sensors > 0 then
          "FAIL"
        else if (SensorVal.validate_discrete_sensors cfg s).warning_sensors >
            0 then "WARNING"
        else "PASS")) ∧
    (∀ (cfg : SensorVal.DiscreteCfg) (s : SensorVal.Sensors),
      (∀ p ∈ cfg.acceptable_statuses, Py.dictLook Prod.fst s p.1 = none) →
      (SensorVal.validate_discrete_sensors cfg s).status = "PASS" ∧
      (SensorVal.validate_discrete_sensors cfg s).violations =
        cfg.acceptable_statuses.map (fun p => ⟨p.1, "MISSING"⟩)) := by
  refine ⟨fun vl s => ?_, fun ru tl s => ?_, fun s => rfl, fun s => rfl,
    fun cfg s => ?_, fun cfg s hmiss => ?_⟩
  · simp only [SensorVal.validate_voltage_sensors]
    rw [SensorVal.foldl_status_invariant _ _ _ (SensorVal.voltStep_status s)]
    rfl
  · simp only [SensorVal.validate_temperature_sensors]
    rw [SensorVal.foldl_status_invariant _ _ _
      (SensorVal.tempStep_status ru s)]
    rfl
  · simp only [SensorVal.validate_discrete_sensors]
    rw [SensorVal.foldl_status_invariant _ _ _
      (SensorVal.discreteStep_status cfg.critical_if_different s)]
    rfl
  have hloop := SensorVal.discreteLoop_all_missing cfg.critical_if_different s
    cfg.acceptable_statuses hmiss SensorVal.mkResult
  constructor
  · simp only [SensorVal.validate_discrete_sensors, hloop]
    rfl
  · simp only [SensorVal.validate_discrete_sensors, hloop]
    rfl

/-- Witness for C5 amended: one concrete instance per clause, plus the
missing-only discrete clause at the counterexample-style configuration. -/
theorem C5_category_status_derivation_amended_witness :
    ((SensorVal.validate_voltage_sensors
        [("P12V", ⟨some 11, some 13, none, none⟩)]
        [("P12V", ⟨"12.1", "Volts", "ok"⟩)]).status =
      (if (SensorVal.validate_voltage_sensors
            [("P12V", ⟨some 11, some 13, none, none⟩)]
            [("P12V", ⟨"12.1", "Volts", "ok"⟩)]).failed_sensors > 0 then
        "FAIL"
      else if (SensorVal.validate_voltage_sensors
            [("P12V", ⟨some 11, some 13, none, none⟩)]
            [("P12V", ⟨"12.1", "Volts", "ok"⟩)]).missing_sensors > 0 ∨
          (SensorVal.validate_voltage_sensors
            [("P12V", ⟨some 11, some 13, none, none⟩)]
            [("P12V", ⟨"12.1", "Volts", "ok"⟩)]).warning_sensors > 0 then
        "WARNING"
      else "PASS")) ∧
    ((SensorVal.validate_discrete_sensors ⟨[("PS1_Status", ["ok"])],
        ["PS1_Status"]⟩ []).status = "PASS" ∧
      (SensorVal.validate_discrete_sensors ⟨[("PS1_Status", ["ok"])],
        ["PS1_Status"]⟩ []).violations =
        [("PS1_Status", ["ok"])].map (fun p => ⟨p.1, "MISSING"⟩)) :=
  ⟨C5_category_status_derivation_amended.1 _ _,
   C5_category_status_derivation_amended.2.2.2.2.2 _ _ (by decide)⟩

namespace SensorVal

/-- One entry of `category_results`: the per-category result dict and its
optional `'error'` key (present exactly on the ERROR stub). -/
structure CatEntry where
  result : CatResult
  err : Option String
deriving DecidableEq

/-- The ERROR stub substituted for a crashed category
(sensor_validator.py:609-619): status `'ERROR'`, the error message, all
counters zero, no violations. -/
def errorStub (msg : String) : CatEntry :=
  ⟨⟨0, 0, 0, 0, 0, 0, [], "ERROR"⟩, some msg⟩

/-- The validation report (sensor_validator.py:554-571, 621-653):
`overall_status` (initialized `'ERROR'` and returned as such on collection
failure), the per-category results, and the summary counters.
`error_details` models the error message of the `error_details` dict. -/
structure ValidationReport where
  overall_status : String
  category_results : List (String × CatEntry)
  categories_checked : Nat
  total_checked : Nat
  total_passed : Nat
  total_violations : Nat
  error_details : Option String
deriving DecidableEq

/-- The `category_results` built by the per-category loop with its
`try/except` (sensor_validator.py:601-619): a successful category keeps its
result, a raising one is replaced by the ERROR stub. -/
def catPairs (sensors : Sensors)
    (cats : List (String × (Sensors → Except String CatResult))) :
    List (String × CatEntry) :=
  cats.map (fun c =>
    (c.1, match c.2 sensors with
      | .ok res => (⟨res, none⟩ : CatEntry)
      | .error e => errorStub e))

/-- `perform_full_validation` (sensor_validator.py:550-667).  `collect`
models `collect_sensor_data`, which may raise (its failure is caught and
returned as the initialized ERROR report).  Each category function may
raise; the per-category `try/except` replaces a raised category by the
ERROR stub and continues — which is why this embedding is a total
function: every exception path of the source lands in a `catch`.  Overall
status: ERROR if any category ERROR, else FAIL, else WARNING, else PASS. -/
def perform_full_validation (collect : Except String Sensors)
    (cats : List (String × (Sensors → Except String CatResult))) :
    ValidationReport :=
  match collect with
  | .error msg => ⟨"ERROR", [], 0, 0, 0, 0, some msg⟩
  | .ok sensors =>
    let pairs := catPairs sensors cats
    let sts := pairs.map (fun q => q.2.result.status)
    ⟨if "ERROR" ∈ sts then "ERROR"
      else if "FAIL" ∈ sts then "FAIL"
      else if "WARNING" ∈ sts then "WARNING"
      else "PASS",
     pairs,
     cats.countP (fun c => match c.2 sensors with
       | .ok _ => true
       | .error _ => false),
     (pairs.map (fun q => q.2.result.actually_checked)).sum,
     (pairs.map (fun q => q.2.result.passed_sensors)).sum,
     (pairs.map (fun q => q.2.result.violations.length)).sum,
     none⟩

end SensorVal

namespace Py

/-- On a keyed list with no duplicate keys, `find?` by key returns exactly
the member with that key. -/
theorem find?_key_of_nodup {F : Type} (l : List (String × F)) (n : String)
    (f : F) (hn : (l.map Prod.fst).Nodup) (hm : (n, f) ∈ l) :
    l.find? (fun q => q.1 = n) = some (n, f) := by
  induction l with
  | nil => cases hm
  | cons p rest ih =>
    rw [List.map_cons] at hn
    have hn2 := List.nodup_cons.mp hn
    by_cases hp : p.1 = n
    · have hpe : p = (n, f) := by
        rcases List.mem_cons.mp hm with he | hr
        · exact he.symm
        · exact absurd
            (by rw [hp]; exact List.mem_map.mpr ⟨(n, f), hr, rfl⟩) hn2.1
      subst hpe
      simp [List.find?_cons]
    · have hr : (n, f) ∈ rest := by
        rcases List.mem_cons.mp hm with he | hr
        · exact absurd (show p.1 = n by rw [← he]) hp
        · exact hr
      simp only [List.find?_cons, decide_eq_false hp]
      exact ih hn2.2 hr

/-- `dictLook` on a keyed list with no duplicate keys finds the member. -/
theorem dictLook_of_nodup {F : Type} (l : List (String × F)) (n : String)
    (f : F) (hn : (l.map Prod.fst).Nodup) (hm : (n, f) ∈ l) :
    dictLook Prod.fst l n = some (n, f) := by
  unfold dictLook
  exact find?_key_of_nodup l.reverse n f
    (by rw [List.map_reverse]; exact List.nodup_reverse.mpr hn)
    (List.mem_reverse.mpr hm)

end Py

/-- C6: if one category's validation function raises, the aggregator
replaces exactly that category's entry with the ERROR stub carrying the
error message, keeps every successfully evaluated category's result
untouched, and the returned report's overall status is always one of the
enumeration (the embedding of `perform_full_validation` is a total
function precisely because every raise of the source lands in a `catch`:
no exception escapes the aggregator); a collection failure yields the
initialized ERROR report with the message in `error_details`. -/
theorem C6_aggregator_isolates_category_errors (sensors : SensorVal.Sensors)
    (cats : List (String ×
      (SensorVal.Sensors → Except String SensorVal.CatResult)))
    (hnodup : (cats.map Prod.fst).Nodup) :
    (∀ p ∈ cats, ∀ e, p.2 sensors = Except.error e →
      Py.dictLook Prod.fst
        (SensorVal.perform_full_validation (Except.ok sensors)
          cats).category_results p.1 =
        some (p.1, SensorVal.errorStub e)) ∧
    (∀ p ∈ cats, ∀ res, p.2 sensors = Except.ok res →
      Py.dictLook Prod.fst
        (SensorVal.perform_full_validation (Except.ok sensors)
          cats).category_results p.1 =
        some (p.1, ⟨res, none⟩)) ∧
    (SensorVal.perform_full_validation (Except.ok sensors)
      cats).overall_status ∈ ["PASS", "WARNING", "FAIL", "ERROR"] ∧
    (∀ msg,
      (SensorVal.perform_full_validation (Except.error msg)
        cats).overall_status = "ERROR" ∧
      (SensorVal.perform_full_validation (Except.error msg)
        cats).error_details = some msg) := by
  have hkeys : ((SensorVal.catPairs sensors cats).map Prod.fst).Nodup := by
    unfold SensorVal.catPairs
    rw [List.map_map]
    exact hnodup
  refine ⟨?_, ?_, ?_, fun msg => ⟨rfl, rfl⟩⟩
  · intro p hp e he
    have hmem : (p.1, SensorVal.errorStub e) ∈
        SensorVal.catPairs sensors cats := by
      unfold SensorVal.catPairs
      exact List.mem_map.mpr ⟨p, hp, by rw [he]⟩
    simp only [SensorVal.perform_full_validation]
    exact Py.dictLook_of_nodup _ _ _ hkeys hmem
  · intro p hp res hres
    have hmem : (p.1, (⟨res, none⟩ : SensorVal.CatEntry)) ∈
        SensorVal.catPairs sensors cats := by
      unfold SensorVal.catPairs
      exact List.mem_map.mpr ⟨p, hp, by rw [hres]⟩
    simp only [SensorVal.perform_full_validation]
    exact Py.dictLook_of_nodup _ _ _ hkeys hmem
  · simp only [SensorVal.perform_full_validation]
    split_ifs <;> simp

/-- Witness for C6: two concrete categories, one raising and one
succeeding, over an empty sensor map, plus a failed collection. -/
theorem C6_aggregator_isolates_category_errors_witness :
    Py.dictLook Prod.fst
        (SensorVal.perform_full_validation (Except.ok ([] : SensorVal.Sensors))
          [("voltages", fun _ => Except.error "boom"),
           ("fans", fun _ => Except.ok SensorVal.mkResult)]).category_results
        "voltages" = some ("voltages", SensorVal.errorStub "boom") ∧
    Py.dictLook Prod.fst
        (SensorVal.perform_full_validation (Except.ok ([] : SensorVal.Sensors))
          [("voltages", fun _ => Except.error "boom"),
           ("fans", fun _ => Except.ok SensorVal.mkResult)]).category_results
        "fans" = some ("fans", ⟨SensorVal.mkResult, none⟩) ∧
    (SensorVal.perform_full_validation (Except.ok ([] : SensorVal.Sensors))
        [("voltages", fun _ => Except.error "boom"),
         ("fans", fun _ => Except.ok SensorVal.mkResult)]).overall_status ∈
      ["PASS", "WARNING", "FAIL", "ERROR"] ∧
    ((SensorVal.perform_full_validation
        (Except.error "ipmitool unreachable")
        [("voltages", fun _ => Except.error "boom"),
         ("fans", fun _ => Except.ok SensorVal.mkResult)]).overall_status =
      "ERROR" ∧
     (SensorVal.perform_full_validation
        (Except.error "ipmitool unreachable")
        [("voltages", fun _ => Except.error "boom"),
         ("fans", fun _ => Except.ok SensorVal.mkResult)]).error_details =
      some "ipmitool unreachable") := by
  have h := C6_aggregator_isolates_category_errors []
    [("voltages", fun _ => Except.error "boom"),
     ("fans", fun _ => Except.ok SensorVal.mkResult)] (by decide)
  exact ⟨h.1 ("voltages", fun _ => Except.error "boom")
      (List.mem_cons_self _ _) "boom" rfl,
    h.2.1 ("fans", fun _ => Except.ok SensorVal.mkResult)
      (List.mem_cons_of_mem _ (List.mem_cons_self _ _))
      SensorVal.mkResult rfl,
    h.2.2.1,
    h.2.2.2 "ipmitool unreachable"⟩
